import Mathlib

/-!
# Kibosh control state (`fs.c`)

A shallow embedding of the fault-configuration control state of the Kibosh
pass-through filesystem: construction and teardown (`kibosh_fs_alloc`,
`kibosh_fs_free`), the accessor protocol (`kibosh_fs_accessor_fd_alloc`,
`kibosh_fs_accessor_fd_release`), the metadata query (`kibosh_fs_control_stat`)
and the fault query (`kibosh_fs_check_read_fault`).

The C code is sequentialised: every function is a pure function from the
control state `kibosh_fs`, the operating-system state `World` and the outcome
of the calls that can fail for reasons outside the program (an "environment"
record per function) to a return value and the new states.  Every call that
acquires or gives back a resource, and every lock operation, is recorded in
`World.trace` in program order.

Bytes are natural numbers, descriptors and return values are integers, a
string is the list of its bytes.
-/

namespace Kibosh

/-! ## Error numbers and constants -/

/-- An error number as a failing call reports it: strictly positive. -/
structure Errno where
  code : Nat
  pos : 0 < code
deriving DecidableEq

/-- The value `-e` returned for the error number `e`. -/
def Errno.neg (e : Errno) : Int := -(e.code : Int)

def EBADF : Errno := ⟨9, by decide⟩
def ENOMEM : Errno := ⟨12, by decide⟩
def EINVAL : Errno := ⟨22, by decide⟩
def ENAMETOOLONG : Errno := ⟨36, by decide⟩

/-- The length of the control buffer (`#define CONTROL_BUF_LEN 16384`). -/
def CONTROL_BUF_LEN : Nat := 16384

def O_RDONLY : Int := 0
def O_WRONLY : Int := 1
def O_RDWR : Int := 2
def O_ACCMODE : Int := 3

/-- The expression `flags & O_ACCMODE` on a two's complement `int`: as
`O_ACCMODE` is 3 this is the non-negative remainder modulo 4 (so `-1`, the
value of a failed `fcntl`, has access mode 3). -/
def accmode (flags : Int) : Int := flags % (O_ACCMODE + 1)

/-- The C string stored at the start of a byte buffer: the bytes before the
first terminator. -/
def cstr (b : List Nat) : List Nat := b.takeWhile (fun c => c != 0)

/-! ## Operating-system state -/

/-- An open descriptor of an anonymous memory file: content, file offset and
the status flags `fcntl(fd, F_GETFL)` reports. -/
structure File where
  content : List Nat
  pos : Nat
  flags : Int
deriving DecidableEq

/-- The calls recorded in the trace. -/
inductive Event where
  | calloc_fs
  | free_fs
  | mutex_init
  | mutex_destroy
  | mutex_lock
  | mutex_unlock
  | strdup_root
  | free_root
  | strdup_pidfile_path
  | free_pidfile_path
  | write_pidfile (path : String)
  | remove_pidfile (path : String)
  | memfd_create (fd : Int)
  | close (fd : Int)
  | faults_parse (id : Nat)
  | faults_free (id : Nat)
  | malloc_buf
  | free_buf
deriving DecidableEq

/-- The state outside `struct kibosh_fs`: the descriptor table, `errno`, the
fault sets that were parsed and not yet freed (by object identity), and the
trace of calls. -/
structure World where
  fds : Int → Option File
  errno : Nat
  next_faults : Nat
  live_faults : List Nat
  trace : List Event

def World.log (w : World) (e : Event) : World :=
  { w with trace := w.trace ++ [e] }

def World.setFile (w : World) (fd : Int) (f : Option File) : World :=
  { w with fds := fun d => if d = fd then f else w.fds d }

/-! ## The control state -/

/-- A `struct kibosh_faults *` that is not NULL: the identity of the object
and the fault set it holds. -/
structure FaultsPtr (F : Type) where
  id : Nat
  val : F
deriving DecidableEq

/-- The fields of `struct kibosh_fs` (declared in `fs.h`) that `fs.c` uses.
A pointer field is `none` when it is NULL; `control_buf` holds the bytes
written into the buffer so far (what lies behind them is indeterminate);
`lock` tells whether the mutex is held. -/
structure kibosh_fs (F : Type) where
  root : Option String
  pidfile_path : Option String
  control_fd : Int
  faults : Option (FaultsPtr F)
  control_buf : Option (List Nat)
  lock : Bool

/-- The fault-language collaborator (`fault.h`), a parameter of the model:
the constant `FAULTS_EMPTY_JSON`, `faults_parse` on the text of a C string
(success with a fault set, or failure with an error number `e`, returned as
`-e`), and `faults_check` on a possibly NULL fault set, a path and an
operation name. -/
structure Collab (F : Type) where
  FAULTS_EMPTY_JSON : List Nat
  faults_parse : List Nat → Except Errno F
  faults_check : Option F → List Nat → String → Int

/-! ## System calls and helpers -/

/-- The call `fcntl(fd, F_GETFL, 0)`: the status flags, or `-1` with `EBADF`. -/
def fcntl_getfl (w : World) (fd : Int) : Int × World :=
  match w.fds fd with
  | some f => (f.flags, w)
  | none => (-1, { w with errno := EBADF.code })

/-- The call `lseek(fd, 0, SEEK_SET)`: fails with `EBADF` on a descriptor that
is not open, or with the error the environment injects; otherwise rewinds. -/
def lseek_set0 (inject : Option Errno) (w : World) (fd : Int) : Int × World :=
  match w.fds fd with
  | none => (-1, { w with errno := EBADF.code })
  | some f =>
    match inject with
    | some e => (-1, { w with errno := e.code })
    | none => (0, w.setFile fd (some { f with pos := 0 }))

/-- The call `close(fd)`: the descriptor leaves the table; the call is
recorded whether or not the descriptor was open. -/
def close (w : World) (fd : Int) : World :=
  match w.fds fd with
  | none => { w.log (Event.close fd) with errno := EBADF.code }
  | some _ => (w.log (Event.close fd)).setFile fd none

def pthread_mutex_lock {F : Type} (fs : kibosh_fs F) (w : World) : kibosh_fs F × World :=
  ({ fs with lock := true }, w.log Event.mutex_lock)

def pthread_mutex_unlock {F : Type} (fs : kibosh_fs F) (w : World) : kibosh_fs F × World :=
  ({ fs with lock := false }, w.log Event.mutex_unlock)

/-- Modelled from the spec: `memfd_create(KIBOSH_CONTROL)`, the repository's
wrapper creating an anonymous memory file (not under `src/`).  The spec calls
it a fallible primitive returning a distinct error: on failure the negative
error code is returned; on success the descriptor the kernel chose refers to
a new empty file opened for reading and writing. -/
def memfd_create (r : Except Errno Nat) (w : World) : Int × World :=
  match r with
  | .error e => (e.neg, w)
  | .ok n =>
    ((n : Int),
      (w.setFile (n : Int) (some { content := [], pos := 0, flags := O_RDWR })).log
        (Event.memfd_create (n : Int)))

/-- Writing `data` at offset `pos` of `content` (a gap is filled with zero
bytes). -/
def write_at (content : List Nat) (pos : Nat) (data : List Nat) : List Nat :=
  content.take pos ++ List.replicate (pos - content.length) 0 ++ data ++
    content.drop (pos + data.length)

/-- Modelled from the spec: `safe_write(fd, data, len)` of `io.h` (not under
`src/`), the bounded write of the whole of `data` at the file offset, failing
with a negative error code. -/
def safe_write (inject : Option Errno) (w : World) (fd : Int) (data : List Nat) : Int × World :=
  match w.fds fd with
  | none => (EBADF.neg, w)
  | some f =>
    match inject with
    | some e => (e.neg, w)
    | none =>
      (0, w.setFile fd (some { f with content := write_at f.content f.pos data,
                                      pos := f.pos + data.length }))

/-- Modelled from the spec: `read_string_from_fd(fd, buf, buf_len)` of `io.h`
(not under `src/`).  The spec: read the entire text from the file offset into
the buffer, bounded by the buffer's fixed capacity; a text longer than the
capacity, or any I/O failure, is an error.  The buffer receives a string, the
text followed by a terminator, so a text fits when it is shorter than
`buf_len`; a text of `buf_len` bytes or more is an error.  The result is the
return value, the bytes the buffer holds afterwards and the new world.  The
environment may inject a failure after `k` bytes. -/
def read_string_from_fd (inject : Option (Errno × Nat)) (w : World) (fd : Int) (buf : List Nat)
    (buf_len : Nat) : Int × List Nat × World :=
  match w.fds fd with
  | none => (EBADF.neg, buf, w)
  | some f =>
    let text := f.content.drop f.pos
    match inject with
    | some (e, k) =>
      let n := min k (min text.length buf_len)
      (e.neg, text.take n, w.setFile fd (some { f with pos := f.pos + n }))
    | none =>
      if buf_len ≤ text.length then
        (ENAMETOOLONG.neg, text.take buf_len,
          w.setFile fd (some { f with pos := f.pos + buf_len }))
      else
        (0, text ++ [0], w.setFile fd (some { f with pos := f.pos + text.length }))

/-- Modelled from the spec: `duplicate_fd(dest_fd, src_fd)` of `io.h` (not
under `src/`): copy the entire content of the source, from its file offset,
into the destination at its file offset.  On an injected failure after `k`
bytes the negative error code is returned. -/
def duplicate_fd (inject : Option (Errno × Nat)) (w : World) (dest src : Int) : Int × World :=
  match w.fds src, w.fds dest with
  | some s, some d =>
    let data := s.content.drop s.pos
    match inject with
    | some (e, k) =>
      let part := data.take k
      (e.neg,
        (w.setFile src (some { s with pos := s.pos + part.length })).setFile dest
          (some { d with content := write_at d.content d.pos part, pos := d.pos + part.length }))
    | none =>
      (0,
        (w.setFile src (some { s with pos := s.pos + data.length })).setFile dest
          (some { d with content := write_at d.content d.pos data, pos := d.pos + data.length }))
  | _, _ => (EBADF.neg, w)

/-- The call `faults_parse(str, &faults)`: on success a new fault-set object
is created, becomes live, and is stored in `faults`; on failure the negative
error code is returned and `faults` keeps its value. -/
def faults_parse {F : Type} (E : Collab F) (w : World) (str : List Nat)
    (out : Option (FaultsPtr F)) : Int × Option (FaultsPtr F) × World :=
  match E.faults_parse (cstr str) with
  | .error e => (e.neg, out, w)
  | .ok v =>
    (0, some ⟨w.next_faults, v⟩,
      { w with next_faults := w.next_faults + 1,
               live_faults := w.live_faults ++ [w.next_faults],
               trace := w.trace ++ [Event.faults_parse w.next_faults] })

/-- The call `faults_free(faults)`. -/
def faults_free {F : Type} (w : World) (p : FaultsPtr F) : World :=
  { w with live_faults := w.live_faults.erase p.id,
           trace := w.trace ++ [Event.faults_free p.id] }

/-! ## `kibosh_fs_free` and `kibosh_fs_alloc` -/

/-- The function `kibosh_fs_free`: a no-op on NULL; otherwise gives back the
root string, the pidfile and its path, the control descriptor, the fault set
and the control buffer, those that are set, then destroys the mutex and
frees the structure. -/
def kibosh_fs_free {F : Type} (fs : Option (kibosh_fs F)) (w : World) : World :=
  match fs with
  | none => w
  | some fs =>
    let w := match fs.root with
      | some _ => w.log Event.free_root
      | none => w
    let w := match fs.pidfile_path with
      | some p => (w.log (Event.remove_pidfile p)).log Event.free_pidfile_path
      | none => w
    let w := if 0 ≤ fs.control_fd then close w fs.control_fd else w
    let w := match fs.faults with
      | some p => faults_free w p
      | none => w
    let w := match fs.control_buf with
      | some _ => w.log Event.free_buf
      | none => w
    (w.log Event.mutex_destroy).log Event.free_fs

/-- The function `kibosh_fs_alloc_oom`. -/
def kibosh_fs_alloc_oom {F : Type} (fs : Option (kibosh_fs F)) (w : World) : Int × World :=
  (ENOMEM.neg, kibosh_fs_free fs w)

/-- The outcome of the calls of `kibosh_fs_alloc` that depend on the
environment: whether `calloc`, the two `strdup` and `malloc` succeed, the
return value of `pthread_mutex_init` (0 on success, else an error number;
`errno` is not set by it), the error of `access`, the value of the
environment variable `PIDFILE_PATH`, the error of `write_pidfile`, the result
of `memfd_create` and the error of `safe_write`. -/
structure AllocEnv where
  calloc_ok : Bool
  mutex_init : Nat
  strdup_root_ok : Bool
  access_err : Option Errno
  pidfile_env : Option String
  strdup_pidfile_ok : Bool
  write_pidfile_err : Option Errno
  memfd : Except Errno Nat
  safe_write_err : Option Errno
  malloc_ok : Bool

/-- The structure `calloc` returns: all fields zero. -/
def zeroed_fs (F : Type) : kibosh_fs F :=
  { root := none, pidfile_path := none, control_fd := 0, faults := none,
    control_buf := none, lock := false }

/-- The tail of `kibosh_fs_alloc` from the creation of the control file on. -/
def kibosh_fs_alloc_control {F : Type} (E : Collab F) (env : AllocEnv) (fs : kibosh_fs F)
    (w : World) : Int × Option (kibosh_fs F) × World :=
  let (fd, w) := memfd_create env.memfd w
  let fs := { fs with control_fd := fd }
  if fs.control_fd < 0 then
    (fs.control_fd, none, kibosh_fs_free (some fs) w)
  else
    let (ret, w) := safe_write env.safe_write_err w fs.control_fd
      (cstr E.FAULTS_EMPTY_JSON ++ [0])
    if ret < 0 then
      (ret, none, kibosh_fs_free (some fs) w)
    else
      let (ret, faults, w) := faults_parse E w E.FAULTS_EMPTY_JSON fs.faults
      let fs := { fs with faults := faults }
      if ret < 0 then
        (ret, none, kibosh_fs_free (some fs) w)
      else if env.malloc_ok then
        let fs := { fs with control_buf := some [] }
        (0, some fs, w.log Event.malloc_buf)
      else
        (ENOMEM.neg, none, kibosh_fs_free (some fs) w)

/-- The part of `kibosh_fs_alloc` that handles the pidfile. -/
def kibosh_fs_alloc_pidfile {F : Type} (E : Collab F) (env : AllocEnv) (fs : kibosh_fs F)
    (w : World) : Int × Option (kibosh_fs F) × World :=
  match env.pidfile_env with
  | none => kibosh_fs_alloc_control E env fs w
  | some path =>
    if env.strdup_pidfile_ok then
      let fs := { fs with pidfile_path := some path }
      let w := w.log Event.strdup_pidfile_path
      match env.write_pidfile_err with
      | some e => (e.neg, none, kibosh_fs_free (some fs) w)
      | none => kibosh_fs_alloc_control E env fs (w.log (Event.write_pidfile path))
    else
      let r := kibosh_fs_alloc_oom (some fs) w
      (r.1, none, r.2)

/-- The function `kibosh_fs_alloc`: the return value, `*out` and the new
world. -/
def kibosh_fs_alloc {F : Type} (E : Collab F) (env : AllocEnv) (root : String) (w : World) :
    Int × Option (kibosh_fs F) × World :=
  if env.calloc_ok then
    let w := w.log Event.calloc_fs
    let fs := zeroed_fs F
    if env.mutex_init ≠ 0 then
      (-(w.errno : Int), none, w.log Event.free_fs)
    else
      let w := w.log Event.mutex_init
      let fs := { fs with control_fd := -1 }
      if env.strdup_root_ok then
        let fs := { fs with root := some root }
        let w := w.log Event.strdup_root
        match env.access_err with
        | some e =>
          let w := { w with errno := e.code }
          (-(w.errno : Int), none, kibosh_fs_free (some fs) w)
        | none => kibosh_fs_alloc_pidfile E env fs w
      else
        let r := kibosh_fs_alloc_oom (some fs) w
        (r.1, none, r.2)
  else
    let r := kibosh_fs_alloc_oom (none : Option (kibosh_fs F)) w
    (r.1, none, r.2)

/-! ## The accessor protocol -/

/-- The outcome of the calls of `kibosh_fs_accessor_fd_alloc` that depend on
the environment. -/
structure OpenEnv where
  memfd : Except Errno Nat
  lseek_control_err : Option Errno
  duplicate_err : Option (Errno × Nat)
  lseek_new_err : Option Errno

/-- The labels `error_release_lock` and `error` of
`kibosh_fs_accessor_fd_alloc`. -/
def accessor_alloc_error_release_lock {F : Type} (fs : kibosh_fs F) (w : World) (new_fd : Int)
    (ret : Int) : Int × kibosh_fs F × World :=
  let (fs, w) := pthread_mutex_unlock fs w
  (ret, fs, close w new_fd)

/-- The function `kibosh_fs_accessor_fd_alloc`. -/
def kibosh_fs_accessor_fd_alloc {F : Type} (env : OpenEnv) (fs : kibosh_fs F) (w : World)
    (populate : Bool) : Int × kibosh_fs F × World :=
  let (new_fd, w) := memfd_create env.memfd w
  if new_fd < 0 then
    (new_fd, fs, w)
  else if populate then
    let (fs, w) := pthread_mutex_lock fs w
    let (r, w) := lseek_set0 env.lseek_control_err w fs.control_fd
    if r < 0 then
      accessor_alloc_error_release_lock fs w new_fd (-(w.errno : Int))
    else
      let (ret, w) := duplicate_fd env.duplicate_err w new_fd fs.control_fd
      if ret < 0 then
        accessor_alloc_error_release_lock fs w new_fd ret
      else
        let (r, w) := lseek_set0 env.lseek_new_err w new_fd
        if r < 0 then
          accessor_alloc_error_release_lock fs w new_fd (-(w.errno : Int))
        else
          let (fs, w) := pthread_mutex_unlock fs w
          (new_fd, fs, w)
  else
    (new_fd, fs, w)

/-- The function `kibosh_fs_control_stat`: the return value, the size stored
in `stbuf` when `fstat` succeeds, and the new states. -/
def kibosh_fs_control_stat {F : Type} (inject : Option Errno) (fs : kibosh_fs F) (w : World) :
    Int × Option Nat × kibosh_fs F × World :=
  let (fs, w) := pthread_mutex_lock fs w
  match w.fds fs.control_fd, inject with
  | some f, none =>
    let (fs, w) := pthread_mutex_unlock fs w
    (0, some f.content.length, fs, w)
  | some _, some e =>
    let w := { w with errno := e.code }
    let ret := -(w.errno : Int)
    let (fs, w) := pthread_mutex_unlock fs w
    (ret, none, fs, w)
  | none, _ =>
    let w := { w with errno := EBADF.code }
    let ret := -(w.errno : Int)
    let (fs, w) := pthread_mutex_unlock fs w
    (ret, none, fs, w)

/-- The outcome of the calls of `kibosh_fs_accessor_fd_release` that depend
on the environment. -/
structure ReleaseEnv where
  lseek_err : Option Errno
  read_err : Option (Errno × Nat)

/-- The label `done_close_fd` of `kibosh_fs_accessor_fd_release`. -/
def release_done_close_fd {F : Type} (fs : kibosh_fs F) (w : World) (fd : Int) (ret : Int) :
    Int × kibosh_fs F × World :=
  (ret, fs, close w fd)

/-- The label `done_release_lock` of `kibosh_fs_accessor_fd_release`. -/
def release_done_release_lock {F : Type} (fs : kibosh_fs F) (w : World) (fd : Int) (ret : Int) :
    Int × kibosh_fs F × World :=
  let (fs, w) := pthread_mutex_unlock fs w
  release_done_close_fd fs w fd ret

/-- The function `kibosh_fs_accessor_fd_release`. -/
def kibosh_fs_accessor_fd_release {F : Type} (E : Collab F) (env : ReleaseEnv)
    (fs : kibosh_fs F) (w : World) (fd : Int) : Int × kibosh_fs F × World :=
  let (flags, w) := fcntl_getfl w fd
  if accmode flags = O_RDONLY then
    release_done_close_fd fs w fd 0
  else
    let (fs, w) := pthread_mutex_lock fs w
    let (r, w) := lseek_set0 env.lseek_err w fd
    if r < 0 then
      release_done_release_lock fs w fd (-(w.errno : Int))
    else
      let (ret, buf, w) :=
        read_string_from_fd env.read_err w fd (fs.control_buf.getD []) CONTROL_BUF_LEN
      let fs := { fs with control_buf := fs.control_buf.map (fun _ => buf) }
      if ret < 0 then
        release_done_release_lock fs w fd ret
      else
        let (ret, faults, w) := faults_parse E w (fs.control_buf.getD []) none
        if ret < 0 then
          release_done_release_lock fs w fd ret
        else
          let old_fd := fs.control_fd
          let fs := { fs with faults := faults, control_fd := fd }
          release_done_release_lock fs w old_fd 0

/-- The function `kibosh_fs_check_read_fault`. -/
def kibosh_fs_check_read_fault {F : Type} (E : Collab F) (fs : kibosh_fs F) (w : World)
    (path : List Nat) : Int × kibosh_fs F × World :=
  let (fs, w) := pthread_mutex_lock fs w
  let ret := E.faults_check (fs.faults.map (fun p => p.val)) path "read"
  let (fs, w) := pthread_mutex_unlock fs w
  (ret, fs, w)

/-! ## States between operations -/

/-- A constructed control state between two operations: the committed handle
is open, the fault set and the control buffer are set, the lock is free. -/
structure Constructed {F : Type} (fs : kibosh_fs F) (w : World) : Prop where
  control_open : ∃ c, w.fds fs.control_fd = some c
  faults_set : ∃ p, fs.faults = some p
  buf_set : ∃ b, fs.control_buf = some b
  unlocked : fs.lock = false

/-- The descriptors closed in a trace, in order. -/
def closed_fds (t : List Event) : List Int :=
  t.filterMap (fun e => match e with
    | Event.close fd => some fd
    | _ => none)

/-- The fault sets freed in a trace, in order. -/
def freed_faults (t : List Event) : List Nat :=
  t.filterMap (fun e => match e with
    | Event.faults_free id => some id
    | _ => none)

/-- The number of lock acquisitions in a trace. -/
def lock_count (t : List Event) : Nat :=
  t.count Event.mutex_lock

/-! ## Reachable states -/

/-- A control state together with the world it lives in. -/
structure State (F : Type) where
  fs : kibosh_fs F
  w : World

/-- One step between two operations: a call of one of the four operations of
the control state, or a caller writing to a handle it holds.  A new descriptor
is one that is not in use; callers release descriptors other than the
committed one, and write to their open descriptors. -/
inductive Step {F : Type} (E : Collab F) : State F → State F → Prop where
  | accessor_fd_alloc (s : State F) (env : OpenEnv) (populate : Bool)
      (hfresh : ∀ n, env.memfd = .ok n → s.w.fds (n : Int) = none) :
      Step E s ⟨(kibosh_fs_accessor_fd_alloc env s.fs s.w populate).2.1,
        (kibosh_fs_accessor_fd_alloc env s.fs s.w populate).2.2⟩
  | accessor_fd_release (s : State F) (env : ReleaseEnv) (fd : Int)
      (hne : fd ≠ s.fs.control_fd) :
      Step E s ⟨(kibosh_fs_accessor_fd_release E env s.fs s.w fd).2.1,
        (kibosh_fs_accessor_fd_release E env s.fs s.w fd).2.2⟩
  | control_stat (s : State F) (inject : Option Errno) :
      Step E s ⟨(kibosh_fs_control_stat inject s.fs s.w).2.2.1,
        (kibosh_fs_control_stat inject s.fs s.w).2.2.2⟩
  | check_read_fault (s : State F) (path : List Nat) :
      Step E s ⟨(kibosh_fs_check_read_fault E s.fs s.w path).2.1,
        (kibosh_fs_check_read_fault E s.fs s.w path).2.2⟩
  | caller_write (s : State F) (fd : Int) (f g : File)
      (hopen : s.w.fds fd = some f) (hne : fd ≠ s.fs.control_fd) :
      Step E s ⟨s.fs, s.w.setFile fd (some g)⟩

/-- The states reachable from a successful `kibosh_fs_alloc`. -/
inductive Reachable {F : Type} (E : Collab F) : State F → Prop where
  | init (env : AllocEnv) (root : String) (w : World) (fs : kibosh_fs F) (w' : World)
      (h : kibosh_fs_alloc E env root w = (0, some fs, w')) : Reachable E ⟨fs, w'⟩
  | step (s t : State F) (hs : Reachable E s) (ht : Step E s t) : Reachable E t

/-- The full content of a file as a text: all its bytes, without the
terminator at its end if there is one. -/
def fullText (c : List Nat) : List Nat :=
  if c.getLast? = some 0 then c.dropLast else c

/-- The sync invariant as C3 states it: the fault set is not NULL and is the
result of parsing the full content of the committed file. -/
def SyncFull {F : Type} (E : Collab F) (s : State F) : Prop :=
  ∃ p c, s.fs.faults = some p ∧ s.w.fds s.fs.control_fd = some c ∧
    E.faults_parse (fullText c.content) = .ok p.val

/-- The sync invariant of the code: the fault set is not NULL and is the
result of parsing the C string at the start of the committed file, its
content up to the first terminator. -/
def SyncText {F : Type} (E : Collab F) (s : State F) : Prop :=
  ∃ p c, s.fs.faults = some p ∧ s.w.fds s.fs.control_fd = some c ∧
    E.faults_parse (cstr c.content) = .ok p.val

/-! ## A concrete collaborator and concrete states -/

/-- A small fault language for running the model on concrete inputs: a
document is a sequence of printable bytes that opens with `{` (123) and ends
with `}` (125); its fault set is the bytes in between. -/
def sample_parse (t : List Nat) : Except Errno (List Nat) :=
  if t.head? = some 123 ∧ t.getLast? = some 125 ∧ 2 ≤ t.length ∧
      t.all (fun c => decide (32 ≤ c) && decide (c < 127)) = true then
    .ok (t.drop 1).dropLast
  else
    .error EINVAL

/-- The fault query of the small fault language: a read of a path whose first
byte is listed in the fault set gets error 5. -/
def sample_check (f : Option (List Nat)) (path : List Nat) (op : String) : Int :=
  match f, path with
  | some body, c :: _ => if op = "read" ∧ c ∈ body then 5 else 0
  | _, _ => 0

def sampleCollab : Collab (List Nat) :=
  { FAULTS_EMPTY_JSON := [123, 125], faults_parse := sample_parse, faults_check := sample_check }

/-- A world with no open descriptor. -/
def emptyWorld : World :=
  { fds := fun _ => none, errno := 0, next_faults := 0, live_faults := [], trace := [] }

/-- An environment of `kibosh_fs_alloc` in which every call succeeds, no
pidfile is configured and the control file gets descriptor 3. -/
def goodAllocEnv : AllocEnv :=
  { calloc_ok := true, mutex_init := 0, strdup_root_ok := true, access_err := none,
    pidfile_env := none, strdup_pidfile_ok := true, write_pidfile_err := none,
    memfd := .ok 3, safe_write_err := none, malloc_ok := true }

/-- The control state `kibosh_fs_alloc` builds in `emptyWorld`. -/
def fs0 : kibosh_fs (List Nat) :=
  { root := some "/mnt", pidfile_path := none, control_fd := 3,
    faults := some ⟨0, []⟩, control_buf := some [], lock := false }

/-- The world after that construction: descriptor 3 holds the empty
configuration and its terminator, fault set 0 is live. -/
def w0 : World :=
  (kibosh_fs_alloc sampleCollab goodAllocEnv "/mnt" emptyWorld).2.2

/-- The world `w0` in which a caller holds descriptor `4` with the given
content and status flags. -/
def w0_with (content : List Nat) (flags : Int) : World :=
  w0.setFile 4 (some { content := content, pos := content.length, flags := flags })

/-- The world `w0` in which callers hold descriptors `4` and `5` with the given
contents, both opened for reading and writing. -/
def w0_two (a b : List Nat) : World :=
  (w0.setFile 4 (some { content := a, pos := a.length, flags := O_RDWR })).setFile 5
    (some { content := b, pos := b.length, flags := O_RDWR })

/-- An environment of `kibosh_fs_accessor_fd_alloc` without failure, in which
the new handle gets descriptor `n`. -/
def goodOpenEnv (n : Nat) : OpenEnv :=
  { memfd := .ok n, lseek_control_err := none, duplicate_err := none, lseek_new_err := none }

/-- An environment of `kibosh_fs_accessor_fd_alloc` in which the new handle
gets descriptor `n` and the copy fails with `EINVAL` after `k` bytes. -/
def copyFailsOpenEnv (n k : Nat) : OpenEnv :=
  { memfd := .ok n, lseek_control_err := none, duplicate_err := some (EINVAL, k),
    lseek_new_err := none }

/-- An environment of `kibosh_fs_accessor_fd_release` without I/O failure. -/
def goodReleaseEnv : ReleaseEnv := { lseek_err := none, read_err := none }

/-- An environment of `kibosh_fs_alloc` in which `pthread_mutex_init` fails
with `EAGAIN` (11); every other call would succeed. -/
def mutexFailsAllocEnv : AllocEnv :=
  { goodAllocEnv with mutex_init := 11 }

/-- The state after `kibosh_fs_alloc`. -/
def s0 : State (List Nat) := ⟨fs0, w0⟩

/-- The state after a caller opened descriptor 4 without population. -/
def s1 : State (List Nat) :=
  ⟨(kibosh_fs_accessor_fd_alloc (goodOpenEnv 4) s0.fs s0.w false).2.1,
    (kibosh_fs_accessor_fd_alloc (goodOpenEnv 4) s0.fs s0.w false).2.2⟩

/-- The state after the caller wrote `{a}`, a terminator, `{b}` and a
terminator to descriptor 4. -/
def s2 : State (List Nat) :=
  ⟨s1.fs, s1.w.setFile 4
    (some { content := [123, 97, 125, 0, 123, 98, 125, 0], pos := 8, flags := O_RDWR })⟩

/-- The state after the caller released descriptor 4. -/
def s3 : State (List Nat) :=
  ⟨(kibosh_fs_accessor_fd_release sampleCollab goodReleaseEnv s2.fs s2.w 4).2.1,
    (kibosh_fs_accessor_fd_release sampleCollab goodReleaseEnv s2.fs s2.w 4).2.2⟩

/-! ## Facts about the helpers -/

theorem Errno.neg_lt_zero (e : Errno) : e.neg < 0 := by
  have h := e.pos
  unfold Errno.neg
  omega

theorem cstr_append_zero (c r : List Nat) : cstr (c ++ 0 :: r) = cstr c := by
  induction c with
  | nil => simp [cstr]
  | cons a t ih =>
    by_cases h : a = 0
    · simp [cstr, h]
    · simp only [cstr] at ih
      simp [cstr, List.takeWhile_cons, h, ih]

theorem cstr_idem (c : List Nat) : cstr (cstr c) = cstr c := by
  induction c with
  | nil => simp [cstr]
  | cons a t ih =>
    by_cases h : a = 0
    · simp [cstr, h]
    · simp only [cstr] at ih
      simp [cstr, List.takeWhile_cons, h, ih]

theorem cstr_cstr_terminated (c : List Nat) : cstr (cstr c ++ [0]) = cstr c := by
  rw [cstr_append_zero, cstr_idem]

@[simp] theorem close_fds_self (w : World) (fd : Int) : (close w fd).fds fd = none := by
  unfold close
  cases h : w.fds fd <;> simp [World.log, World.setFile, h]

theorem close_fds_ne (w : World) (fd d : Int) (h : d ≠ fd) : (close w fd).fds d = w.fds d := by
  unfold close
  cases w.fds fd <;> simp [World.log, World.setFile, h]

@[simp] theorem close_trace (w : World) (fd : Int) :
    (close w fd).trace = w.trace ++ [Event.close fd] := by
  unfold close
  cases w.fds fd <;> simp [World.log, World.setFile]

@[simp] theorem close_live_faults (w : World) (fd : Int) :
    (close w fd).live_faults = w.live_faults := by
  unfold close
  cases w.fds fd <;> simp [World.log, World.setFile]

@[simp] theorem close_next_faults (w : World) (fd : Int) :
    (close w fd).next_faults = w.next_faults := by
  unfold close
  cases w.fds fd <;> simp [World.log, World.setFile]

/-! ## The paths of `kibosh_fs_accessor_fd_release` -/

/-- The successful commit, field by field. -/
theorem release_commit {F : Type} (E : Collab F) (env : ReleaseEnv) (fs : kibosh_fs F)
    (w : World) (fd : Int) (f : File) (b : List Nat) (v : F) (hfd : w.fds fd = some f)
    (hw : accmode f.flags ≠ O_RDONLY) (hb : fs.control_buf = some b)
    (hseek : env.lseek_err = none) (hread : env.read_err = none)
    (hlen : f.content.length < CONTROL_BUF_LEN)
    (hparse : E.faults_parse (cstr f.content) = .ok v) :
    (kibosh_fs_accessor_fd_release E env fs w fd).1 = 0 ∧
    (kibosh_fs_accessor_fd_release E env fs w fd).2.1 =
      { fs with control_fd := fd, faults := some ⟨w.next_faults, v⟩,
                control_buf := some (f.content ++ [0]), lock := false } ∧
    (kibosh_fs_accessor_fd_release E env fs w fd).2.2.trace =
      w.trace ++ [Event.mutex_lock, Event.faults_parse w.next_faults, Event.mutex_unlock,
        Event.close fs.control_fd] ∧
    (kibosh_fs_accessor_fd_release E env fs w fd).2.2.live_faults =
      w.live_faults ++ [w.next_faults] ∧
    (kibosh_fs_accessor_fd_release E env fs w fd).2.2.next_faults = w.next_faults + 1 ∧
    (fd ≠ fs.control_fd →
      (kibosh_fs_accessor_fd_release E env fs w fd).2.2.fds fd =
        some { f with pos := f.content.length }) ∧
    (kibosh_fs_accessor_fd_release E env fs w fd).2.2.fds fs.control_fd = none ∧
    (∀ d, d ≠ fd → d ≠ fs.control_fd →
      (kibosh_fs_accessor_fd_release E env fs w fd).2.2.fds d = w.fds d) := by
  simp only [kibosh_fs_accessor_fd_release, fcntl_getfl, hfd, hw, release_done_close_fd,
    release_done_release_lock, pthread_mutex_lock, pthread_mutex_unlock, lseek_set0, hseek,
    read_string_from_fd, hread, World.log, World.setFile, hb, faults_parse]
  simp only [if_false, if_true, Option.map_some', Option.getD_some, List.drop_zero,
    cstr_append_zero, hparse, Nat.not_le.mpr hlen, lt_self_iff_false,
    Int.neg_pos, Nat.zero_add, close_trace, close_live_faults, close_next_faults, close_fds_self]
  refine ⟨trivial, trivial, by simp, trivial, trivial, ?_, trivial, ?_⟩
  · intro h
    rw [close_fds_ne _ _ _ h]
    simp
  · intro d h1 h2
    rw [close_fds_ne _ _ _ h2]
    simp [h1]

/-- Every failing path of the release of a handle that is not read-only: the
return value is negative, the lock is taken and given back, the handle is
closed, and nothing else changes but the control buffer and `errno`. -/
theorem release_failure {F : Type} (E : Collab F) (env : ReleaseEnv) (fs : kibosh_fs F)
    (w : World) (fd : Int)
    (hcause : w.fds fd = none ∨ ∃ f, w.fds fd = some f ∧ accmode f.flags ≠ O_RDONLY ∧
      (env.lseek_err ≠ none ∨ env.read_err ≠ none ∨ CONTROL_BUF_LEN ≤ f.content.length ∨
        ∃ e, E.faults_parse (cstr f.content) = .error e))
    (hb : ∃ b, fs.control_buf = some b) :
    (kibosh_fs_accessor_fd_release E env fs w fd).1 < 0 ∧
    (kibosh_fs_accessor_fd_release E env fs w fd).2.1.faults = fs.faults ∧
    (kibosh_fs_accessor_fd_release E env fs w fd).2.1.control_fd = fs.control_fd ∧
    (kibosh_fs_accessor_fd_release E env fs w fd).2.1.lock = false ∧
    (kibosh_fs_accessor_fd_release E env fs w fd).2.2.trace =
      w.trace ++ [Event.mutex_lock, Event.mutex_unlock, Event.close fd] ∧
    (kibosh_fs_accessor_fd_release E env fs w fd).2.2.live_faults = w.live_faults ∧
    (kibosh_fs_accessor_fd_release E env fs w fd).2.2.next_faults = w.next_faults ∧
    (kibosh_fs_accessor_fd_release E env fs w fd).2.2.fds fd = none ∧
    (∃ b', (kibosh_fs_accessor_fd_release E env fs w fd).2.1.control_buf = some b') ∧
    (∀ d, d ≠ fd → (kibosh_fs_accessor_fd_release E env fs w fd).2.2.fds d = w.fds d) := by
  obtain ⟨b, hb⟩ := hb
  rcases hcause with hfd | ⟨f, hfd, hw, hcause⟩
  · simp only [kibosh_fs_accessor_fd_release, fcntl_getfl, hfd, release_done_close_fd,
      release_done_release_lock, pthread_mutex_lock, pthread_mutex_unlock, lseek_set0,
      World.log, accmode, O_ACCMODE, O_RDONLY]
    simp [EBADF]
    refine ⟨⟨b, hb⟩, ?_⟩
    intro d hd
    rw [close_fds_ne _ _ _ hd]
  · cases hs : env.lseek_err with
    | some e =>
      simp only [kibosh_fs_accessor_fd_release, fcntl_getfl, hfd, hw, release_done_close_fd,
        release_done_release_lock, pthread_mutex_lock, pthread_mutex_unlock, lseek_set0, hs,
        World.log]
      have := e.pos
      simp
      refine ⟨by omega, ⟨b, hb⟩, ?_⟩
      intro d hd
      rw [close_fds_ne _ _ _ hd]
    | none =>
      cases hr : env.read_err with
      | some ek =>
        obtain ⟨e, k⟩ := ek
        simp only [kibosh_fs_accessor_fd_release, fcntl_getfl, hfd, hw, release_done_close_fd,
          release_done_release_lock, pthread_mutex_lock, pthread_mutex_unlock, lseek_set0, hs,
          read_string_from_fd, hr, World.log, World.setFile, hb]
        simp [Errno.neg_lt_zero]
        intro d hd
        rw [close_fds_ne _ _ _ hd]
        simp [hd]
      | none =>
        by_cases hl : CONTROL_BUF_LEN ≤ f.content.length
        · simp only [kibosh_fs_accessor_fd_release, fcntl_getfl, hfd, hw, release_done_close_fd,
            release_done_release_lock, pthread_mutex_lock, pthread_mutex_unlock, lseek_set0, hs,
            read_string_from_fd, hr, World.log, World.setFile, hb]
          simp [Errno.neg_lt_zero, hl]
          intro d hd
          rw [close_fds_ne _ _ _ hd]
          simp [hd]
        · rcases hcause with h | h | h | ⟨e, hp⟩
          · exact absurd hs h
          · exact absurd hr h
          · exact absurd h hl
          · simp only [kibosh_fs_accessor_fd_release, fcntl_getfl, hfd, hw, release_done_close_fd,
              release_done_release_lock, pthread_mutex_lock, pthread_mutex_unlock, lseek_set0, hs,
              read_string_from_fd, hr, World.log, World.setFile, hb, faults_parse]
            simp [Errno.neg_lt_zero, hl, cstr_append_zero, hp]
            intro d hd
            rw [close_fds_ne _ _ _ hd]
            simp [hd]

/-- The return value of the release when only the parse fails. -/
theorem release_parse_error_code {F : Type} (E : Collab F) (env : ReleaseEnv)
    (fs : kibosh_fs F) (w : World) (fd : Int) (f : File) (e : Errno) (hfd : w.fds fd = some f)
    (hw : accmode f.flags ≠ O_RDONLY) (hb : ∃ b, fs.control_buf = some b)
    (hseek : env.lseek_err = none) (hread : env.read_err = none)
    (hlen : f.content.length < CONTROL_BUF_LEN)
    (hparse : E.faults_parse (cstr f.content) = .error e) :
    (kibosh_fs_accessor_fd_release E env fs w fd).1 = e.neg := by
  obtain ⟨b, hb⟩ := hb
  simp only [kibosh_fs_accessor_fd_release, fcntl_getfl, hfd, hw, release_done_close_fd,
    release_done_release_lock, pthread_mutex_lock, pthread_mutex_unlock, lseek_set0, hseek,
    read_string_from_fd, hread, World.log, World.setFile, hb, faults_parse]
  simp [Errno.neg_lt_zero, Nat.not_le.mpr hlen, cstr_append_zero, hparse]


/-- The read-only path of the release. -/
theorem release_read_only_path {F : Type} (E : Collab F) (env : ReleaseEnv) (fs : kibosh_fs F)
    (w : World) (fd : Int) (f : File) (hfd : w.fds fd = some f)
    (hro : accmode f.flags = O_RDONLY) :
    (kibosh_fs_accessor_fd_release E env fs w fd).1 = 0 ∧
    (kibosh_fs_accessor_fd_release E env fs w fd).2.1 = fs ∧
    (kibosh_fs_accessor_fd_release E env fs w fd).2.2.trace = w.trace ++ [Event.close fd] ∧
    (kibosh_fs_accessor_fd_release E env fs w fd).2.2.fds fd = none ∧
    (∀ d, d ≠ fd → (kibosh_fs_accessor_fd_release E env fs w fd).2.2.fds d = w.fds d) ∧
    (kibosh_fs_accessor_fd_release E env fs w fd).2.2.live_faults = w.live_faults := by
  simp [kibosh_fs_accessor_fd_release, fcntl_getfl, hfd, hro, release_done_close_fd, close,
    World.log, World.setFile]
  intro d hd
  simp [hd]


/-- For a handle that is open and not read-only, either one of the failure
causes holds or the commit goes through. -/
theorem release_dichotomy {F : Type} (E : Collab F) (env : ReleaseEnv) (f : File) :
    (env.lseek_err ≠ none ∨ env.read_err ≠ none ∨ CONTROL_BUF_LEN ≤ f.content.length ∨
        ∃ e, E.faults_parse (cstr f.content) = .error e) ∨
    (env.lseek_err = none ∧ env.read_err = none ∧ f.content.length < CONTROL_BUF_LEN ∧
        ∃ v, E.faults_parse (cstr f.content) = .ok v) := by
  by_cases h1 : env.lseek_err = none
  · by_cases h2 : env.read_err = none
    · by_cases h3 : CONTROL_BUF_LEN ≤ f.content.length
      · exact Or.inl (Or.inr (Or.inr (Or.inl h3)))
      · cases h4 : E.faults_parse (cstr f.content) with
        | error e => exact Or.inl (Or.inr (Or.inr (Or.inr ⟨e, rfl⟩)))
        | ok v => exact Or.inr ⟨h1, h2, Nat.lt_of_not_le h3, v, rfl⟩
    · exact Or.inl (Or.inr (Or.inl h2))
  · exact Or.inl (Or.inl h1)

theorem constructed_fs0_with (c : List Nat) (flags : Int) : Constructed fs0 (w0_with c flags) :=
  ⟨⟨_, rfl⟩, ⟨_, rfl⟩, ⟨_, rfl⟩, rfl⟩

theorem constructed_fs0_two (a b : List Nat) : Constructed fs0 (w0_two a b) :=
  ⟨⟨_, rfl⟩, ⟨_, rfl⟩, ⟨_, rfl⟩, rfl⟩

theorem closed_fds_append (t l : List Event) :
    closed_fds (t ++ l) = closed_fds t ++ closed_fds l := by
  simp [closed_fds, List.filterMap_append]

theorem freed_faults_append (t l : List Event) :
    freed_faults (t ++ l) = freed_faults t ++ freed_faults l := by
  simp [freed_faults, List.filterMap_append]

/-- A release that returns 0 on a handle that is open and not read-only is a
commit: no failure cause holds. -/
theorem release_zero_commits {F : Type} (E : Collab F) (env : ReleaseEnv) (fs : kibosh_fs F)
    (w : World) (fd : Int) (f : File) (hfd : w.fds fd = some f)
    (hw : accmode f.flags ≠ O_RDONLY) (hb : ∃ b, fs.control_buf = some b)
    (hret : (kibosh_fs_accessor_fd_release E env fs w fd).1 = 0) :
    env.lseek_err = none ∧ env.read_err = none ∧ f.content.length < CONTROL_BUF_LEN ∧
      ∃ v, E.faults_parse (cstr f.content) = .ok v := by
  rcases release_dichotomy E env f with h | h
  · have := (release_failure E env fs w fd (Or.inr ⟨f, hfd, hw, h⟩) hb).1
    omega
  · exact h

/-! ## The claims about `kibosh_fs_accessor_fd_release` -/

/-- C1: rejection isolation.  In a constructed control state, releasing a
caller's handle that is not read-only and whose text `faults_parse` rejects
returns a negative value, which is the parser's error code when the seek and
the read succeed and the text fits the control buffer, and leaves the fault
set, the committed descriptor, the file behind it and the live fault sets as
they were. -/
theorem release_rejection_isolation {F : Type} (E : Collab F) (env : ReleaseEnv)
    (fs : kibosh_fs F) (w : World) (fd : Int) (f : File) (e : Errno)
    (hc : Constructed fs w) (hfd : w.fds fd = some f) (hne : fd ≠ fs.control_fd)
    (hw : accmode f.flags ≠ O_RDONLY)
    (hparse : E.faults_parse (cstr f.content) = .error e) :
    (kibosh_fs_accessor_fd_release E env fs w fd).1 < 0 ∧
    (env.lseek_err = none → env.read_err = none → f.content.length < CONTROL_BUF_LEN →
      (kibosh_fs_accessor_fd_release E env fs w fd).1 = e.neg) ∧
    (kibosh_fs_accessor_fd_release E env fs w fd).2.1.faults = fs.faults ∧
    (kibosh_fs_accessor_fd_release E env fs w fd).2.1.control_fd = fs.control_fd ∧
    (kibosh_fs_accessor_fd_release E env fs w fd).2.2.fds fs.control_fd =
      w.fds fs.control_fd ∧
    (kibosh_fs_accessor_fd_release E env fs w fd).2.2.live_faults = w.live_faults := by
  have h := release_failure E env fs w fd
    (Or.inr ⟨f, hfd, hw, Or.inr (Or.inr (Or.inr ⟨e, hparse⟩))⟩) hc.buf_set
  refine ⟨h.1, ?_, h.2.1, h.2.2.1, ?_, h.2.2.2.2.2.1⟩
  · intro h1 h2 h3
    exact release_parse_error_code E env fs w fd f e hfd hw hc.buf_set h1 h2 h3 hparse
  · exact h.2.2.2.2.2.2.2.2.2 _ (Ne.symm hne)

/-- Witness of C1: the text `no` is submitted through descriptor 4. -/
theorem release_rejection_isolation_witness :
    (kibosh_fs_accessor_fd_release sampleCollab goodReleaseEnv fs0
        (w0_with [110, 111, 0] O_RDWR) 4).1 = EINVAL.neg ∧
    (kibosh_fs_accessor_fd_release sampleCollab goodReleaseEnv fs0
        (w0_with [110, 111, 0] O_RDWR) 4).2.1.faults = fs0.faults ∧
    (kibosh_fs_accessor_fd_release sampleCollab goodReleaseEnv fs0
        (w0_with [110, 111, 0] O_RDWR) 4).2.2.fds 3 = (w0_with [110, 111, 0] O_RDWR).fds 3 :=
  have h := release_rejection_isolation sampleCollab goodReleaseEnv fs0
    (w0_with [110, 111, 0] O_RDWR) 4 ⟨[110, 111, 0], 3, O_RDWR⟩ EINVAL
    (constructed_fs0_with _ _) rfl (by decide) (by decide) rfl
  ⟨h.2.1 rfl rfl (by decide), h.2.2.1, h.2.2.2.2.1⟩

/-- C5: in a constructed control state, releasing a caller's handle that is
not read-only and whose text is longer than `CONTROL_BUF_LEN`, or whose seek
or read fails, returns a negative value with the lock given back, commits
nothing (no fault set is parsed, the handle is closed), and leaves the fault
set, the committed descriptor and the file behind it as they were. -/
theorem release_oversized_or_unreadable {F : Type} (E : Collab F) (env : ReleaseEnv)
    (fs : kibosh_fs F) (w : World) (fd : Int) (f : File)
    (hc : Constructed fs w) (hfd : w.fds fd = some f) (hne : fd ≠ fs.control_fd)
    (hw : accmode f.flags ≠ O_RDONLY)
    (hbad : CONTROL_BUF_LEN < f.content.length ∨ env.lseek_err ≠ none ∨ env.read_err ≠ none) :
    (kibosh_fs_accessor_fd_release E env fs w fd).1 < 0 ∧
    (kibosh_fs_accessor_fd_release E env fs w fd).2.1.lock = false ∧
    (kibosh_fs_accessor_fd_release E env fs w fd).2.2.trace =
      w.trace ++ [Event.mutex_lock, Event.mutex_unlock, Event.close fd] ∧
    (kibosh_fs_accessor_fd_release E env fs w fd).2.1.faults = fs.faults ∧
    (kibosh_fs_accessor_fd_release E env fs w fd).2.1.control_fd = fs.control_fd ∧
    (kibosh_fs_accessor_fd_release E env fs w fd).2.2.fds fs.control_fd =
      w.fds fs.control_fd ∧
    (kibosh_fs_accessor_fd_release E env fs w fd).2.2.live_faults = w.live_faults := by
  have hcause : env.lseek_err ≠ none ∨ env.read_err ≠ none ∨
      CONTROL_BUF_LEN ≤ f.content.length ∨ ∃ e, E.faults_parse (cstr f.content) = .error e := by
    rcases hbad with h | h | h
    · exact Or.inr (Or.inr (Or.inl (Nat.le_of_lt h)))
    · exact Or.inl h
    · exact Or.inr (Or.inl h)
  have h := release_failure E env fs w fd (Or.inr ⟨f, hfd, hw, hcause⟩) hc.buf_set
  exact ⟨h.1, h.2.2.2.1, h.2.2.2.2.1, h.2.1, h.2.2.1, h.2.2.2.2.2.2.2.2.2 _ (Ne.symm hne),
    h.2.2.2.2.2.1⟩

/-- Witness of C5: a text of 16385 bytes `A` is submitted through descriptor 4. -/
theorem release_oversized_or_unreadable_witness :
    (kibosh_fs_accessor_fd_release sampleCollab goodReleaseEnv fs0
        (w0_with (List.replicate 16385 65) O_RDWR) 4).1 < 0 ∧
    (kibosh_fs_accessor_fd_release sampleCollab goodReleaseEnv fs0
        (w0_with (List.replicate 16385 65) O_RDWR) 4).2.1.faults = some ⟨0, []⟩ ∧
    (kibosh_fs_accessor_fd_release sampleCollab goodReleaseEnv fs0
        (w0_with (List.replicate 16385 65) O_RDWR) 4).2.1.control_fd = 3 :=
  have h := release_oversized_or_unreadable sampleCollab goodReleaseEnv fs0
    (w0_with (List.replicate 16385 65) O_RDWR) 4
    ⟨List.replicate 16385 65, (List.replicate 16385 65).length, O_RDWR⟩
    (constructed_fs0_with _ _) rfl (by decide) (by decide)
    (Or.inl (by
      show CONTROL_BUF_LEN < (List.replicate 16385 65).length
      rw [List.length_replicate]
      decide))
  ⟨h.1, h.2.2.2.1, h.2.2.2.2.1⟩

/-- C4: releasing a handle whose access mode is `O_RDONLY` returns 0, closes
that handle and nothing else, takes no lock, and leaves the control state
(fault set, committed descriptor, control buffer, lock), every other
descriptor and the live fault sets as they were, whatever the content. -/
theorem release_read_only {F : Type} (E : Collab F) (env : ReleaseEnv) (fs : kibosh_fs F)
    (w : World) (fd : Int) (f : File) (hfd : w.fds fd = some f)
    (hro : accmode f.flags = O_RDONLY) :
    (kibosh_fs_accessor_fd_release E env fs w fd).1 = 0 ∧
    (kibosh_fs_accessor_fd_release E env fs w fd).2.1 = fs ∧
    (kibosh_fs_accessor_fd_release E env fs w fd).2.2.trace = w.trace ++ [Event.close fd] ∧
    (kibosh_fs_accessor_fd_release E env fs w fd).2.2.fds fd = none ∧
    (∀ d, d ≠ fd → (kibosh_fs_accessor_fd_release E env fs w fd).2.2.fds d = w.fds d) ∧
    (kibosh_fs_accessor_fd_release E env fs w fd).2.2.live_faults = w.live_faults :=
  release_read_only_path E env fs w fd f hfd hro

/-- Witness of C4: descriptor 4 is read-only and holds bytes that are no
configuration. -/
theorem release_read_only_witness :
    (kibosh_fs_accessor_fd_release sampleCollab goodReleaseEnv fs0
        (w0_with [1, 2, 3] O_RDONLY) 4).1 = 0 ∧
    (kibosh_fs_accessor_fd_release sampleCollab goodReleaseEnv fs0
        (w0_with [1, 2, 3] O_RDONLY) 4).2.1 = fs0 :=
  have h := release_read_only sampleCollab goodReleaseEnv fs0 (w0_with [1, 2, 3] O_RDONLY) 4
    ⟨[1, 2, 3], 3, O_RDONLY⟩ rfl (by decide)
  ⟨h.1, h.2.1⟩

/-- C8: in a constructed control state, the release of a descriptor other than
the committed one issues exactly one `close`.  On the read-only path (return
value 0) and on every failure path (return value negative) the descriptor
closed is the input handle and the committed descriptor stays; on a commit
(return value 0) the descriptor closed is the previously committed one and the
input handle, still open, is the committed descriptor.  In every case the
committed descriptor is open afterwards. -/
theorem release_closes_exactly_once {F : Type} (E : Collab F) (env : ReleaseEnv)
    (fs : kibosh_fs F) (w : World) (fd : Int)
    (hc : Constructed fs w) (hne : fd ≠ fs.control_fd) :
    (∃ c, (kibosh_fs_accessor_fd_release E env fs w fd).2.2.fds
        (kibosh_fs_accessor_fd_release E env fs w fd).2.1.control_fd = some c) ∧
    (closed_fds (kibosh_fs_accessor_fd_release E env fs w fd).2.2.trace).length =
      (closed_fds w.trace).length + 1 ∧
    (((∃ f, w.fds fd = some f ∧ accmode f.flags = O_RDONLY) ∧
        (kibosh_fs_accessor_fd_release E env fs w fd).1 = 0 ∧
        (kibosh_fs_accessor_fd_release E env fs w fd).2.1.control_fd = fs.control_fd ∧
        closed_fds (kibosh_fs_accessor_fd_release E env fs w fd).2.2.trace =
          closed_fds w.trace ++ [fd]) ∨
      ((¬ ∃ f, w.fds fd = some f ∧ accmode f.flags = O_RDONLY) ∧
        (kibosh_fs_accessor_fd_release E env fs w fd).1 < 0 ∧
        (kibosh_fs_accessor_fd_release E env fs w fd).2.1.control_fd = fs.control_fd ∧
        closed_fds (kibosh_fs_accessor_fd_release E env fs w fd).2.2.trace =
          closed_fds w.trace ++ [fd]) ∨
      ((¬ ∃ f, w.fds fd = some f ∧ accmode f.flags = O_RDONLY) ∧
        (kibosh_fs_accessor_fd_release E env fs w fd).1 = 0 ∧
        (kibosh_fs_accessor_fd_release E env fs w fd).2.1.control_fd = fd ∧
        closed_fds (kibosh_fs_accessor_fd_release E env fs w fd).2.2.trace =
          closed_fds w.trace ++ [fs.control_fd] ∧
        (kibosh_fs_accessor_fd_release E env fs w fd).2.2.fds fs.control_fd = none)) := by
  obtain ⟨c, hcf⟩ := hc.control_open
  obtain ⟨b, hb⟩ := hc.buf_set
  have tri : (∃ f, w.fds fd = some f ∧ accmode f.flags = O_RDONLY) ∨
      ((¬ ∃ f, w.fds fd = some f ∧ accmode f.flags = O_RDONLY) ∧
        (w.fds fd = none ∨ ∃ f, w.fds fd = some f ∧ accmode f.flags ≠ O_RDONLY ∧
          (env.lseek_err ≠ none ∨ env.read_err ≠ none ∨ CONTROL_BUF_LEN ≤ f.content.length ∨
            ∃ e, E.faults_parse (cstr f.content) = .error e))) ∨
      ((¬ ∃ f, w.fds fd = some f ∧ accmode f.flags = O_RDONLY) ∧
        ∃ f v, w.fds fd = some f ∧ accmode f.flags ≠ O_RDONLY ∧ env.lseek_err = none ∧
          env.read_err = none ∧ f.content.length < CONTROL_BUF_LEN ∧
          E.faults_parse (cstr f.content) = .ok v) := by
    obtain hfd | ⟨f, hfd⟩ : w.fds fd = none ∨ ∃ f, w.fds fd = some f := by
      cases w.fds fd <;> simp
    · exact Or.inr (Or.inl ⟨by simp [hfd], Or.inl hfd⟩)
    · by_cases hro : accmode f.flags = O_RDONLY
      · exact Or.inl ⟨f, hfd, hro⟩
      · have hnro : ¬ ∃ g, w.fds fd = some g ∧ accmode g.flags = O_RDONLY := by
          rintro ⟨g, hg, hg2⟩
          rw [hfd] at hg
          cases hg
          exact hro hg2
        rcases release_dichotomy E env f with hcause | ⟨h1, h2, h3, v, h4⟩
        · exact Or.inr (Or.inl ⟨hnro, Or.inr ⟨f, hfd, hro, hcause⟩⟩)
        · exact Or.inr (Or.inr ⟨hnro, f, v, hfd, hro, h1, h2, h3, h4⟩)
  rcases tri with ⟨f, hfd, hro⟩ | ⟨hnro, hcause⟩ | ⟨hnro, f, v, hfd, hro, h1, h2, h3, h4⟩
  · have h := release_read_only_path E env fs w fd f hfd hro
    refine ⟨⟨c, ?_⟩, ?_, Or.inl ⟨⟨f, hfd, hro⟩, h.1, ?_, ?_⟩⟩
    · rw [h.2.1, h.2.2.2.2.1 _ (Ne.symm hne)]
      exact hcf
    · rw [h.2.2.1, closed_fds_append]
      simp [closed_fds]
    · rw [h.2.1]
    · rw [h.2.2.1, closed_fds_append]
      simp [closed_fds]
  · have h := release_failure E env fs w fd hcause ⟨b, hb⟩
    refine ⟨⟨c, ?_⟩, ?_, Or.inr (Or.inl ⟨hnro, h.1, h.2.2.1, ?_⟩)⟩
    · rw [h.2.2.1, h.2.2.2.2.2.2.2.2.2 _ (Ne.symm hne)]
      exact hcf
    · rw [h.2.2.2.2.1, closed_fds_append]
      simp [closed_fds]
    · rw [h.2.2.2.2.1, closed_fds_append]
      simp [closed_fds]
  · have h := release_commit E env fs w fd f b v hfd hro hb h1 h2 h3 h4
    refine ⟨⟨{ f with pos := f.content.length }, ?_⟩, ?_,
      Or.inr (Or.inr ⟨hnro, h.1, ?_, ?_, h.2.2.2.2.2.2.1⟩)⟩
    · rw [h.2.1]
      exact h.2.2.2.2.2.1 hne
    · rw [h.2.2.1, closed_fds_append]
      simp [closed_fds]
    · rw [h.2.1]
    · rw [h.2.2.1, closed_fds_append]
      simp [closed_fds]

/-- Witness of C8: the text `{a}` is committed through descriptor 4. -/
theorem release_closes_exactly_once_witness :
    (closed_fds (kibosh_fs_accessor_fd_release sampleCollab goodReleaseEnv fs0
        (w0_with [123, 97, 125, 0] O_RDWR) 4).2.2.trace).length =
      (closed_fds (w0_with [123, 97, 125, 0] O_RDWR).trace).length + 1 :=
  (release_closes_exactly_once sampleCollab goodReleaseEnv fs0
    (w0_with [123, 97, 125, 0] O_RDWR) 4 (constructed_fs0_with _ _) (by decide)).2.1


/-- C10 (the code departs from the claim): a commit never calls `faults_free`.
In a constructed control state whose fault set `p` is live, after a release
that commits (a handle that is not read-only, return value 0) no fault set has
been freed, `p` is still live, and the committed fault set is another live
object: two fault sets are live and only one is referenced. -/
theorem release_commit_keeps_old_faults_live {F : Type} (E : Collab F) (env : ReleaseEnv)
    (fs : kibosh_fs F) (w : World) (fd : Int) (f : File) (p : FaultsPtr F)
    (hc : Constructed fs w) (hfd : w.fds fd = some f) (hw : accmode f.flags ≠ O_RDONLY)
    (hp : fs.faults = some p) (hlive : p.id ∈ w.live_faults) (hfresh : p.id < w.next_faults)
    (hret : (kibosh_fs_accessor_fd_release E env fs w fd).1 = 0) :
    freed_faults (kibosh_fs_accessor_fd_release E env fs w fd).2.2.trace =
      freed_faults w.trace ∧
    p.id ∈ (kibosh_fs_accessor_fd_release E env fs w fd).2.2.live_faults ∧
    (kibosh_fs_accessor_fd_release E env fs w fd).2.1.faults ≠ fs.faults ∧
    ∃ q, (kibosh_fs_accessor_fd_release E env fs w fd).2.1.faults = some q ∧ q.id ≠ p.id ∧
      q.id ∈ (kibosh_fs_accessor_fd_release E env fs w fd).2.2.live_faults := by
  obtain ⟨h1, h2, h3, v, h4⟩ := release_zero_commits E env fs w fd f hfd hw hc.buf_set hret
  obtain ⟨b, hb⟩ := hc.buf_set
  have h := release_commit E env fs w fd f b v hfd hw hb h1 h2 h3 h4
  refine ⟨?_, ?_, ?_, ⟨w.next_faults, v⟩, ?_, ?_, ?_⟩
  · rw [h.2.2.1, freed_faults_append]
    simp [freed_faults]
  · rw [h.2.2.2.1]
    exact List.mem_append_left _ hlive
  · rw [h.2.1, hp]
    intro heq
    have hid : w.next_faults = p.id := congrArg FaultsPtr.id (Option.some.inj heq)
    omega
  · rw [h.2.1]
  · exact Nat.ne_of_gt hfresh
  · rw [h.2.2.2.1]
    simp

/-- Witness of C10: after the commit of `{a}` through descriptor 4 the fault
set of the construction, object 0, is still live. -/
theorem release_commit_keeps_old_faults_live_witness :
    freed_faults (kibosh_fs_accessor_fd_release sampleCollab goodReleaseEnv fs0
        (w0_with [123, 97, 125, 0] O_RDWR) 4).2.2.trace = [] ∧
    0 ∈ (kibosh_fs_accessor_fd_release sampleCollab goodReleaseEnv fs0
        (w0_with [123, 97, 125, 0] O_RDWR) 4).2.2.live_faults :=
  have h := release_commit_keeps_old_faults_live sampleCollab goodReleaseEnv fs0
    (w0_with [123, 97, 125, 0] O_RDWR) 4 ⟨[123, 97, 125, 0], 4, O_RDWR⟩ ⟨0, []⟩
    (constructed_fs0_with _ _) rfl (by decide) rfl (by decide) (by decide) (by decide)
  ⟨h.1, h.2.1⟩

/-- C6: last commit wins.  In a constructed control state let two callers hold
distinct handles `fdA` and `fdB`, neither read-only, whose texts fit the
control buffer and parse to `vA` and `vB`.  With no I/O failure, releasing
`fdB` and then `fdA` returns 0 both times (whether or not `fdB` is a handle
distinct from the committed one); afterwards the committed
descriptor is `fdA`, its file has the content of `fdA` unchanged, the fault
set is the parse of the text of `fdA`, and `kibosh_fs_check_read_fault`
returns what `faults_check` answers on that fault set. -/
theorem last_commit_wins {F : Type} (E : Collab F) (envB envA : ReleaseEnv)
    (fs : kibosh_fs F) (w : World) (fdA fdB : Int) (fA fB : File) (vA vB : F)
    (path : List Nat) (hc : Constructed fs w)
    (hA : w.fds fdA = some fA) (hB : w.fds fdB = some fB) (hAB : fdA ≠ fdB)
    (hAc : fdA ≠ fs.control_fd)
    (hwA : accmode fA.flags ≠ O_RDONLY) (hwB : accmode fB.flags ≠ O_RDONLY)
    (hioA : envA.lseek_err = none ∧ envA.read_err = none)
    (hioB : envB.lseek_err = none ∧ envB.read_err = none)
    (hlenA : fA.content.length < CONTROL_BUF_LEN) (hlenB : fB.content.length < CONTROL_BUF_LEN)
    (hpA : E.faults_parse (cstr fA.content) = .ok vA)
    (hpB : E.faults_parse (cstr fB.content) = .ok vB) :
    (kibosh_fs_accessor_fd_release E envB fs w fdB).1 = 0 ∧
    (kibosh_fs_accessor_fd_release E envA (kibosh_fs_accessor_fd_release E envB fs w fdB).2.1
      (kibosh_fs_accessor_fd_release E envB fs w fdB).2.2 fdA).1 = 0 ∧
    (kibosh_fs_accessor_fd_release E envA (kibosh_fs_accessor_fd_release E envB fs w fdB).2.1
      (kibosh_fs_accessor_fd_release E envB fs w fdB).2.2 fdA).2.1.control_fd = fdA ∧
    (kibosh_fs_accessor_fd_release E envA (kibosh_fs_accessor_fd_release E envB fs w fdB).2.1
      (kibosh_fs_accessor_fd_release E envB fs w fdB).2.2 fdA).2.2.fds fdA =
        some { fA with pos := fA.content.length } ∧
    (kibosh_fs_accessor_fd_release E envA (kibosh_fs_accessor_fd_release E envB fs w fdB).2.1
      (kibosh_fs_accessor_fd_release E envB fs w fdB).2.2 fdA).2.1.faults =
        some ⟨w.next_faults + 1, vA⟩ ∧
    (kibosh_fs_check_read_fault E
      (kibosh_fs_accessor_fd_release E envA (kibosh_fs_accessor_fd_release E envB fs w fdB).2.1
        (kibosh_fs_accessor_fd_release E envB fs w fdB).2.2 fdA).2.1
      (kibosh_fs_accessor_fd_release E envA (kibosh_fs_accessor_fd_release E envB fs w fdB).2.1
        (kibosh_fs_accessor_fd_release E envB fs w fdB).2.2 fdA).2.2 path).1 =
        E.faults_check (some vA) path "read" := by
  obtain ⟨b, hb⟩ := hc.buf_set
  have h1 := release_commit E envB fs w fdB fB b vB hB hwB hb hioB.1 hioB.2 hlenB hpB
  have hA1 : (kibosh_fs_accessor_fd_release E envB fs w fdB).2.2.fds fdA = some fA := by
    rw [h1.2.2.2.2.2.2.2 fdA hAB hAc]
    exact hA
  have hb1 : (kibosh_fs_accessor_fd_release E envB fs w fdB).2.1.control_buf =
      some (fB.content ++ [0]) := by
    rw [h1.2.1]
  have hc1 : (kibosh_fs_accessor_fd_release E envB fs w fdB).2.1.control_fd = fdB := by
    rw [h1.2.1]
  have hn1 := h1.2.2.2.2.1
  have h2 := release_commit E envA (kibosh_fs_accessor_fd_release E envB fs w fdB).2.1
    (kibosh_fs_accessor_fd_release E envB fs w fdB).2.2 fdA fA _ vA hA1 hwA hb1 hioA.1 hioA.2
    hlenA hpA
  refine ⟨h1.1, h2.1, ?_, ?_, ?_, ?_⟩
  · rw [h2.2.1]
  · exact h2.2.2.2.2.2.1 (by rw [hc1]; exact hAB)
  · rw [h2.2.1, hn1]
  · simp only [kibosh_fs_check_read_fault, pthread_mutex_lock, pthread_mutex_unlock]
    rw [h2.2.1]
    rfl

/-- Witness of C6: descriptor 4 holds `{a}`, descriptor 5 holds `{b}`; 5 is
released first, then 4; a read of a path that starts with `a` then gets the
error 5 of the fault set of `{a}`. -/
theorem last_commit_wins_witness :
    (kibosh_fs_accessor_fd_release sampleCollab goodReleaseEnv
      (kibosh_fs_accessor_fd_release sampleCollab goodReleaseEnv fs0
        (w0_two [123, 97, 125, 0] [123, 98, 125, 0]) 5).2.1
      (kibosh_fs_accessor_fd_release sampleCollab goodReleaseEnv fs0
        (w0_two [123, 97, 125, 0] [123, 98, 125, 0]) 5).2.2 4).2.1.faults = some ⟨2, [97]⟩ ∧
    (kibosh_fs_check_read_fault sampleCollab
      (kibosh_fs_accessor_fd_release sampleCollab goodReleaseEnv
        (kibosh_fs_accessor_fd_release sampleCollab goodReleaseEnv fs0
          (w0_two [123, 97, 125, 0] [123, 98, 125, 0]) 5).2.1
        (kibosh_fs_accessor_fd_release sampleCollab goodReleaseEnv fs0
          (w0_two [123, 97, 125, 0] [123, 98, 125, 0]) 5).2.2 4).2.1
      (kibosh_fs_accessor_fd_release sampleCollab goodReleaseEnv
        (kibosh_fs_accessor_fd_release sampleCollab goodReleaseEnv fs0
          (w0_two [123, 97, 125, 0] [123, 98, 125, 0]) 5).2.1
        (kibosh_fs_accessor_fd_release sampleCollab goodReleaseEnv fs0
          (w0_two [123, 97, 125, 0] [123, 98, 125, 0]) 5).2.2 4).2.2 [97, 47, 120]).1 = 5 :=
  have h := last_commit_wins sampleCollab goodReleaseEnv goodReleaseEnv fs0
    (w0_two [123, 97, 125, 0] [123, 98, 125, 0]) 4 5 ⟨[123, 97, 125, 0], 4, O_RDWR⟩
    ⟨[123, 98, 125, 0], 4, O_RDWR⟩ [97] [98] [97, 47, 120] (constructed_fs0_two _ _) rfl rfl
    (by decide) (by decide) (by decide) (by decide) ⟨rfl, rfl⟩ ⟨rfl, rfl⟩
    (by decide) (by decide) rfl rfl
  ⟨h.2.2.2.2.1, h.2.2.2.2.2⟩


/-! ## The paths of `kibosh_fs_accessor_fd_alloc` -/

theorem write_at_empty (d : List Nat) : write_at [] 0 d = d := by
  simp [write_at]

/-- The creation of the backing store fails. -/
theorem accessor_alloc_memfd_fails {F : Type} (env : OpenEnv) (fs : kibosh_fs F) (w : World)
    (populate : Bool) (e : Errno) (hm : env.memfd = .error e) :
    kibosh_fs_accessor_fd_alloc env fs w populate = (e.neg, fs, w) := by
  simp [kibosh_fs_accessor_fd_alloc, memfd_create, hm, Errno.neg_lt_zero]

/-- No population: the new handle is returned at once. -/
theorem accessor_alloc_unpopulated {F : Type} (env : OpenEnv) (fs : kibosh_fs F) (w : World)
    (n : Nat) (hm : env.memfd = .ok n) :
    kibosh_fs_accessor_fd_alloc env fs w false =
      ((n : Int), fs,
        (w.setFile (n : Int) (some { content := [], pos := 0, flags := O_RDWR })).log
          (Event.memfd_create (n : Int))) := by
  simp [kibosh_fs_accessor_fd_alloc, memfd_create, hm]

/-- Population succeeds, field by field. -/
theorem accessor_alloc_populated {F : Type} (env : OpenEnv) (fs : kibosh_fs F) (w : World)
    (n : Nat) (c : File) (hm : env.memfd = .ok n) (hfresh : w.fds (n : Int) = none)
    (hc : w.fds fs.control_fd = some c) (h1 : env.lseek_control_err = none)
    (h2 : env.duplicate_err = none) (h3 : env.lseek_new_err = none) :
    (kibosh_fs_accessor_fd_alloc env fs w true).1 = (n : Int) ∧
    (kibosh_fs_accessor_fd_alloc env fs w true).2.1 = { fs with lock := false } ∧
    (kibosh_fs_accessor_fd_alloc env fs w true).2.2.trace =
      w.trace ++ [Event.memfd_create (n : Int), Event.mutex_lock, Event.mutex_unlock] ∧
    (kibosh_fs_accessor_fd_alloc env fs w true).2.2.fds (n : Int) =
      some { content := c.content, pos := 0, flags := O_RDWR } ∧
    (kibosh_fs_accessor_fd_alloc env fs w true).2.2.fds fs.control_fd =
      some { c with pos := c.content.length } ∧
    (∀ d, d ≠ (n : Int) → d ≠ fs.control_fd →
      (kibosh_fs_accessor_fd_alloc env fs w true).2.2.fds d = w.fds d) ∧
    (kibosh_fs_accessor_fd_alloc env fs w true).2.2.live_faults = w.live_faults ∧
    (kibosh_fs_accessor_fd_alloc env fs w true).2.2.next_faults = w.next_faults := by
  have hne : fs.control_fd ≠ (n : Int) := by
    intro h
    rw [h, hfresh] at hc
    cases hc
  have hn : ¬ ((n : Int) < 0) := by omega
  simp only [kibosh_fs_accessor_fd_alloc, memfd_create, hm, pthread_mutex_lock,
    pthread_mutex_unlock, lseek_set0, duplicate_fd, World.log, World.setFile, h1, h2, h3]
  simp only [hn, if_false, if_true, hne, hc, write_at_empty, Ne.symm hne, List.drop_zero,
    Nat.zero_add, lt_self_iff_false, List.append_assoc, List.cons_append, List.nil_append,
    List.singleton_append, true_and]
  refine ⟨?_, trivial⟩
  intro d hd1 hd2
  simp [hd1, hd2]

/-- Population fails after the new handle was created: the handle is closed,
the lock is given back, the committed file keeps its content. -/
theorem accessor_alloc_populate_fails {F : Type} (env : OpenEnv) (fs : kibosh_fs F) (w : World)
    (n : Nat) (c : File) (hm : env.memfd = .ok n) (hfresh : w.fds (n : Int) = none)
    (hc : w.fds fs.control_fd = some c)
    (hbad : env.lseek_control_err ≠ none ∨ env.duplicate_err ≠ none ∨
      env.lseek_new_err ≠ none) :
    (kibosh_fs_accessor_fd_alloc env fs w true).1 < 0 ∧
    (kibosh_fs_accessor_fd_alloc env fs w true).2.1 = { fs with lock := false } ∧
    (kibosh_fs_accessor_fd_alloc env fs w true).2.2.trace =
      w.trace ++ [Event.memfd_create (n : Int), Event.mutex_lock, Event.mutex_unlock,
        Event.close (n : Int)] ∧
    (kibosh_fs_accessor_fd_alloc env fs w true).2.2.fds (n : Int) = none ∧
    (∃ c', (kibosh_fs_accessor_fd_alloc env fs w true).2.2.fds fs.control_fd = some c' ∧
      c'.content = c.content ∧ c'.flags = c.flags) ∧
    (∀ d, d ≠ (n : Int) → d ≠ fs.control_fd →
      (kibosh_fs_accessor_fd_alloc env fs w true).2.2.fds d = w.fds d) ∧
    (kibosh_fs_accessor_fd_alloc env fs w true).2.2.live_faults = w.live_faults ∧
    (kibosh_fs_accessor_fd_alloc env fs w true).2.2.next_faults = w.next_faults := by
  have hne : fs.control_fd ≠ (n : Int) := by
    intro h
    rw [h, hfresh] at hc
    cases hc
  have hn : ¬ ((n : Int) < 0) := by omega
  cases h1 : env.lseek_control_err with
  | some e =>
    have := e.pos
    simp only [kibosh_fs_accessor_fd_alloc, memfd_create, hm, pthread_mutex_lock,
      pthread_mutex_unlock, lseek_set0, World.log, World.setFile, h1,
      accessor_alloc_error_release_lock]
    simp only [hn, if_false, if_true, hne, hc, close_trace, close_fds_self, close_live_faults,
      close_next_faults]
    simp
    refine ⟨by omega, ?_, ?_⟩
    · rw [close_fds_ne _ _ _ hne]
      simp [hne, hc]
    · intro d hd1 hd2
      rw [close_fds_ne _ _ _ hd1]
      simp [hd1]
  | none =>
    cases h2 : env.duplicate_err with
    | some ek =>
      obtain ⟨e, k⟩ := ek
      simp only [kibosh_fs_accessor_fd_alloc, memfd_create, hm, pthread_mutex_lock,
        pthread_mutex_unlock, lseek_set0, duplicate_fd, World.log, World.setFile, h1, h2,
        accessor_alloc_error_release_lock]
      simp only [hn, if_false, if_true, hne, hc, Ne.symm hne, close_trace, close_fds_self,
        close_live_faults, close_next_faults, Errno.neg_lt_zero]
      simp
      refine ⟨Errno.neg_lt_zero e, ?_, ?_⟩
      · rw [close_fds_ne _ _ _ hne]
        simp [hne]
      · intro d hd1 hd2
        rw [close_fds_ne _ _ _ hd1]
        simp [hd1, hd2]
    | none =>
      cases h3 : env.lseek_new_err with
      | some e =>
        have := e.pos
        simp only [kibosh_fs_accessor_fd_alloc, memfd_create, hm, pthread_mutex_lock,
          pthread_mutex_unlock, lseek_set0, duplicate_fd, World.log, World.setFile, h1, h2, h3,
          accessor_alloc_error_release_lock]
        simp only [hn, if_false, if_true, hne, hc, Ne.symm hne, close_trace, close_fds_self,
          close_live_faults, close_next_faults, Errno.neg_lt_zero, lt_self_iff_false]
        simp
        refine ⟨by omega, ?_, ?_⟩
        · rw [close_fds_ne _ _ _ hne]
          simp [hne]
        · intro d hd1 hd2
          rw [close_fds_ne _ _ _ hd1]
          simp [hd1, hd2]
      | none =>
        rcases hbad with h | h | h
        · exact absurd h1 h
        · exact absurd h2 h
        · exact absurd h3 h


theorem unlock_unlocked {F : Type} (fs : kibosh_fs F) (h : fs.lock = false) :
    { fs with lock := false } = fs := by
  cases fs
  simp at h
  simp [h]

theorem open_env_cases (env : OpenEnv) :
    (env.lseek_control_err ≠ none ∨ env.duplicate_err ≠ none ∨ env.lseek_new_err ≠ none) ∨
    (env.lseek_control_err = none ∧ env.duplicate_err = none ∧ env.lseek_new_err = none) := by
  by_cases h1 : env.lseek_control_err = none
  · by_cases h2 : env.duplicate_err = none
    · by_cases h3 : env.lseek_new_err = none
      · exact Or.inr ⟨h1, h2, h3⟩
      · exact Or.inl (Or.inr (Or.inr h3))
    · exact Or.inl (Or.inr (Or.inl h2))
  · exact Or.inl (Or.inl h1)

/-- Every path of `kibosh_fs_accessor_fd_alloc` in a constructed control state. -/
theorem accessor_alloc_cases {F : Type} (env : OpenEnv) (fs : kibosh_fs F) (w : World)
    (populate : Bool) (hc : Constructed fs w)
    (hfresh : ∀ n, env.memfd = .ok n → w.fds (n : Int) = none) :
    (kibosh_fs_accessor_fd_alloc env fs w populate).2.1 = fs ∧
    (∃ c c', w.fds fs.control_fd = some c ∧
      (kibosh_fs_accessor_fd_alloc env fs w populate).2.2.fds fs.control_fd = some c' ∧
      c'.content = c.content) ∧
    (kibosh_fs_accessor_fd_alloc env fs w populate).2.2.live_faults = w.live_faults ∧
    (∀ e, env.memfd = .error e →
      (kibosh_fs_accessor_fd_alloc env fs w populate).1 = e.neg ∧
      (kibosh_fs_accessor_fd_alloc env fs w populate).1 < 0 ∧
      (kibosh_fs_accessor_fd_alloc env fs w populate).2.2.trace = w.trace) ∧
    (∀ n, env.memfd = .ok n → populate = true →
      (env.lseek_control_err ≠ none ∨ env.duplicate_err ≠ none ∨ env.lseek_new_err ≠ none) →
      (kibosh_fs_accessor_fd_alloc env fs w populate).1 < 0 ∧
      (kibosh_fs_accessor_fd_alloc env fs w populate).2.2.trace =
        w.trace ++ [Event.memfd_create (n : Int), Event.mutex_lock, Event.mutex_unlock,
          Event.close (n : Int)] ∧
      (kibosh_fs_accessor_fd_alloc env fs w populate).2.2.fds (n : Int) = none) ∧
    (populate = false →
      lock_count (kibosh_fs_accessor_fd_alloc env fs w populate).2.2.trace =
        lock_count w.trace ∧
      (kibosh_fs_accessor_fd_alloc env fs w populate).2.2.fds fs.control_fd =
        w.fds fs.control_fd) := by
  obtain ⟨c, hcf⟩ := hc.control_open
  have hu := unlock_unlocked fs hc.unlocked
  cases hm : env.memfd with
  | error e =>
    rw [accessor_alloc_memfd_fails env fs w populate e hm]
    refine ⟨rfl, ⟨c, c, hcf, hcf, rfl⟩, rfl, ?_, ?_, ?_⟩
    · intro e' he'
      cases he'
      exact ⟨rfl, Errno.neg_lt_zero _, rfl⟩
    · intro n hn
      cases hn
    · intro _
      exact ⟨rfl, rfl⟩
  | ok n =>
    have hfr := hfresh n hm
    have hne : fs.control_fd ≠ (n : Int) := by
      intro h
      rw [h, hfr] at hcf
      cases hcf
    cases populate with
    | false =>
      rw [accessor_alloc_unpopulated env fs w n hm]
      refine ⟨rfl, ⟨c, c, hcf, ?_, rfl⟩, rfl, ?_, ?_, ?_⟩
      · simp [World.log, World.setFile, hne, hcf]
      · intro e he
        cases he
      · intro m _ hp
        cases hp
      · intro _
        simp [World.log, World.setFile, hne, lock_count]
    | true =>
      rcases open_env_cases env with hbad | ⟨h1, h2, h3⟩
      · have h := accessor_alloc_populate_fails env fs w n c hm hfr hcf hbad
        obtain ⟨c', hc1, hc2, _⟩ := h.2.2.2.2.1
        refine ⟨by rw [h.2.1, hu], ⟨c, c', hcf, hc1, hc2⟩, h.2.2.2.2.2.2.1, ?_, ?_, ?_⟩
        · intro e he
          cases he
        · intro m hm' _ _
          cases hm'
          exact ⟨h.1, h.2.2.1, h.2.2.2.1⟩
        · intro hp
          cases hp
      · have h := accessor_alloc_populated env fs w n c hm hfr hcf h1 h2 h3
        refine ⟨by rw [h.2.1, hu], ⟨c, _, hcf, h.2.2.2.2.1, rfl⟩, h.2.2.2.2.2.2.1, ?_, ?_, ?_⟩
        · intro e he
          cases he
        · intro m _ _ hbad
          rcases hbad with hb | hb | hb
          · exact absurd h1 hb
          · exact absurd h2 hb
          · exact absurd h3 hb
        · intro hp
          cases hp

/-! ## The claims about `kibosh_fs_accessor_fd_alloc` -/

/-- C9: in a constructed control state, for both values of `populate` and
whatever fails, `kibosh_fs_accessor_fd_alloc` (the kernel handing out an
unused descriptor) returns with the control state as it was, the lock free,
and with the content of the committed file and the live fault sets
unchanged.  When the creation of the backing store fails the error code is
returned and nothing else happens.  When, with `populate` set, one of the two
seeks or the copy fails, the return value is negative and the new handle was
closed once, after the lock was given back.  With `populate` unset no lock is
taken and the committed descriptor is not touched. -/
theorem accessor_alloc_fails_cleanly {F : Type} (env : OpenEnv) (fs : kibosh_fs F) (w : World)
    (populate : Bool) (hc : Constructed fs w)
    (hfresh : ∀ n, env.memfd = .ok n → w.fds (n : Int) = none) :
    (kibosh_fs_accessor_fd_alloc env fs w populate).2.1 = fs ∧
    (∃ c c', w.fds fs.control_fd = some c ∧
      (kibosh_fs_accessor_fd_alloc env fs w populate).2.2.fds fs.control_fd = some c' ∧
      c'.content = c.content) ∧
    (kibosh_fs_accessor_fd_alloc env fs w populate).2.2.live_faults = w.live_faults ∧
    (∀ e, env.memfd = .error e →
      (kibosh_fs_accessor_fd_alloc env fs w populate).1 = e.neg ∧
      (kibosh_fs_accessor_fd_alloc env fs w populate).1 < 0 ∧
      (kibosh_fs_accessor_fd_alloc env fs w populate).2.2.trace = w.trace) ∧
    (∀ n, env.memfd = .ok n → populate = true →
      (env.lseek_control_err ≠ none ∨ env.duplicate_err ≠ none ∨ env.lseek_new_err ≠ none) →
      (kibosh_fs_accessor_fd_alloc env fs w populate).1 < 0 ∧
      (kibosh_fs_accessor_fd_alloc env fs w populate).2.2.trace =
        w.trace ++ [Event.memfd_create (n : Int), Event.mutex_lock, Event.mutex_unlock,
          Event.close (n : Int)] ∧
      (kibosh_fs_accessor_fd_alloc env fs w populate).2.2.fds (n : Int) = none) ∧
    (populate = false →
      lock_count (kibosh_fs_accessor_fd_alloc env fs w populate).2.2.trace =
        lock_count w.trace ∧
      (kibosh_fs_accessor_fd_alloc env fs w populate).2.2.fds fs.control_fd =
        w.fds fs.control_fd) :=
  accessor_alloc_cases env fs w populate hc hfresh

/-- Witness of C9: the copy into the new descriptor 4 fails after one byte. -/
theorem accessor_alloc_fails_cleanly_witness :
    (kibosh_fs_accessor_fd_alloc (copyFailsOpenEnv 4 1) fs0 w0 true).2.1 = fs0 ∧
    (kibosh_fs_accessor_fd_alloc (copyFailsOpenEnv 4 1) fs0 w0 true).1 < 0 ∧
    (kibosh_fs_accessor_fd_alloc (copyFailsOpenEnv 4 1) fs0 w0 true).2.2.trace =
      w0.trace ++ [Event.memfd_create 4, Event.mutex_lock, Event.mutex_unlock,
        Event.close 4] :=
  have h := accessor_alloc_fails_cleanly (copyFailsOpenEnv 4 1) fs0 w0 true
    ⟨⟨_, rfl⟩, ⟨_, rfl⟩, ⟨_, rfl⟩, rfl⟩
    (fun n hn => by
      cases hn
      rfl)
  have h2 := h.2.2.2.2.1 4 rfl rfl (Or.inr (Or.inl (by simp [copyFailsOpenEnv])))
  ⟨h.1, h2.1, h2.2.1⟩

/-- C2: round trip.  In a constructed control state let a caller's handle that
is not read-only, with content `T`, be released with return value 0, and let
`kibosh_fs_accessor_fd_alloc` then be called with `populate` set and succeed
(the kernel handing out an unused descriptor).  The file of the returned
handle has content exactly `T`, terminator and all that follows included, and
is at offset 0. -/
theorem commit_then_open_round_trip {F : Type} (E : Collab F) (envR : ReleaseEnv)
    (envO : OpenEnv) (fs : kibosh_fs F) (w : World) (fd : Int) (f : File)
    (hc : Constructed fs w) (hfd : w.fds fd = some f) (hne : fd ≠ fs.control_fd)
    (hw : accmode f.flags ≠ O_RDONLY)
    (hret : (kibosh_fs_accessor_fd_release E envR fs w fd).1 = 0)
    (hfresh : ∀ n, envO.memfd = .ok n →
      (kibosh_fs_accessor_fd_release E envR fs w fd).2.2.fds (n : Int) = none)
    (hopen : 0 ≤ (kibosh_fs_accessor_fd_alloc envO
      (kibosh_fs_accessor_fd_release E envR fs w fd).2.1
      (kibosh_fs_accessor_fd_release E envR fs w fd).2.2 true).1) :
    (kibosh_fs_accessor_fd_alloc envO (kibosh_fs_accessor_fd_release E envR fs w fd).2.1
      (kibosh_fs_accessor_fd_release E envR fs w fd).2.2 true).2.2.fds
      (kibosh_fs_accessor_fd_alloc envO (kibosh_fs_accessor_fd_release E envR fs w fd).2.1
        (kibosh_fs_accessor_fd_release E envR fs w fd).2.2 true).1 =
      some { content := f.content, pos := 0, flags := O_RDWR } := by
  obtain ⟨h1, h2, h3, v, h4⟩ := release_zero_commits E envR fs w fd f hfd hw hc.buf_set hret
  obtain ⟨b, hb⟩ := hc.buf_set
  have h := release_commit E envR fs w fd f b v hfd hw hb h1 h2 h3 h4
  have hcfd : (kibosh_fs_accessor_fd_release E envR fs w fd).2.1.control_fd = fd := by
    rw [h.2.1]
  have hcf : (kibosh_fs_accessor_fd_release E envR fs w fd).2.2.fds
      (kibosh_fs_accessor_fd_release E envR fs w fd).2.1.control_fd =
      some { f with pos := f.content.length } := by
    rw [hcfd]
    exact h.2.2.2.2.2.1 hne
  cases hm : envO.memfd with
  | error e =>
    rw [accessor_alloc_memfd_fails envO _ _ true e hm] at hopen
    have := Errno.neg_lt_zero e
    simp only at hopen
    omega
  | ok n =>
    rcases open_env_cases envO with hbad | ⟨g1, g2, g3⟩
    · have hf := (accessor_alloc_populate_fails envO _ _ n _ hm (hfresh n hm) hcf hbad).1
      omega
    · have hp := accessor_alloc_populated envO _ _ n _ hm (hfresh n hm) hcf g1 g2 g3
      rw [hp.1]
      exact hp.2.2.2.1

/-- Witness of C2: `{a}` with its terminator is committed through descriptor 4
and read back through the new descriptor 5. -/
theorem commit_then_open_round_trip_witness :
    (kibosh_fs_accessor_fd_alloc (goodOpenEnv 5)
      (kibosh_fs_accessor_fd_release sampleCollab goodReleaseEnv fs0
        (w0_with [123, 97, 125, 0] O_RDWR) 4).2.1
      (kibosh_fs_accessor_fd_release sampleCollab goodReleaseEnv fs0
        (w0_with [123, 97, 125, 0] O_RDWR) 4).2.2 true).2.2.fds
      (kibosh_fs_accessor_fd_alloc (goodOpenEnv 5)
        (kibosh_fs_accessor_fd_release sampleCollab goodReleaseEnv fs0
          (w0_with [123, 97, 125, 0] O_RDWR) 4).2.1
        (kibosh_fs_accessor_fd_release sampleCollab goodReleaseEnv fs0
          (w0_with [123, 97, 125, 0] O_RDWR) 4).2.2 true).1 =
      some { content := [123, 97, 125, 0], pos := 0, flags := O_RDWR } :=
  commit_then_open_round_trip sampleCollab goodReleaseEnv (goodOpenEnv 5) fs0
    (w0_with [123, 97, 125, 0] O_RDWR) 4 ⟨[123, 97, 125, 0], 4, O_RDWR⟩
    (constructed_fs0_with _ _) rfl (by decide) (by decide) (by decide)
    (fun n hn => by
      cases hn
      decide)
    (by decide)


/-! ## Construction -/

theorem alloc_sample : kibosh_fs_alloc sampleCollab goodAllocEnv "/mnt" emptyWorld =
    (0, some fs0, w0) := by
  rfl

theorem reachable_s3 : Reachable sampleCollab s3 := by
  have h0 : Reachable sampleCollab s0 := Reachable.init goodAllocEnv "/mnt" emptyWorld fs0 w0 rfl
  have h1 : Reachable sampleCollab s1 :=
    Reachable.step s0 s1 h0 (Step.accessor_fd_alloc s0 (goodOpenEnv 4) false (fun n hn => by
      cases hn
      rfl))
  have h2 : Reachable sampleCollab s2 :=
    Reachable.step s1 s2 h1 (Step.caller_write s1 4 ⟨[], 0, O_RDWR⟩ _ rfl (by decide))
  exact Reachable.step s2 s3 h2
    (Step.accessor_fd_release s2 goodReleaseEnv 4 (by decide))

theorem s3_not_sync : ¬ SyncFull sampleCollab s3 := by
  rintro ⟨p, c, hp, hc, hparse⟩
  have h1 : s3.w.fds s3.fs.control_fd = some ⟨[123, 97, 125, 0, 123, 98, 125, 0], 8, O_RDWR⟩ := by
    decide
  rw [h1] at hc
  cases hc
  exact Except.noConfusion hparse


theorem alloc_control_success {F : Type} (E : Collab F) (env : AllocEnv) (fs : kibosh_fs F)
    (w : World) (fs' : kibosh_fs F) (w' : World) (hl : fs.lock = false)
    (h : kibosh_fs_alloc_control E env fs w = (0, some fs', w')) :
    Constructed fs' w' ∧ SyncText E ⟨fs', w'⟩ := by
  unfold kibosh_fs_alloc_control at h
  cases hm : env.memfd with
  | error e =>
    simp [memfd_create, hm, Errno.neg_lt_zero] at h
  | ok n =>
    have hn : ¬ ((n : Int) < 0) := by omega
    cases hsw : env.safe_write_err with
    | some e =>
      simp [memfd_create, hm, hn, safe_write, World.log, World.setFile, hsw,
        Errno.neg_lt_zero] at h
    | none =>
      cases hp : E.faults_parse (cstr E.FAULTS_EMPTY_JSON) with
      | error e =>
        simp [memfd_create, hm, hn, safe_write, World.log, World.setFile, hsw, faults_parse, hp,
          Errno.neg_lt_zero] at h
      | ok v =>
        cases hmo : env.malloc_ok with
        | false =>
          simp [memfd_create, hm, hn, safe_write, World.log, World.setFile, hsw, faults_parse,
            hp, hmo] at h
        | true =>
          simp only [memfd_create, hm, hn, safe_write, World.log, World.setFile, hsw,
            faults_parse, hp, hmo, if_true, if_false, lt_self_iff_false, Prod.mk.injEq,
            Option.some.injEq, true_and] at h
          obtain ⟨h1, h2⟩ := h
          subst h1
          subst h2
          have hfile : (if (n : Int) = (n : Int) then
              some ({ content := write_at [] 0 (cstr E.FAULTS_EMPTY_JSON ++ [0]),
                      pos := 0 + (cstr E.FAULTS_EMPTY_JSON ++ [0]).length,
                      flags := O_RDWR } : File)
              else if (n : Int) = (n : Int) then
                some { content := [], pos := 0, flags := O_RDWR } else w.fds (n : Int)) =
              some { content := cstr E.FAULTS_EMPTY_JSON ++ [0],
                     pos := 0 + (cstr E.FAULTS_EMPTY_JSON ++ [0]).length, flags := O_RDWR } := by
            simp [write_at_empty]
          refine ⟨⟨⟨_, hfile⟩, ⟨_, rfl⟩, ⟨_, rfl⟩, hl⟩, ⟨_, _, rfl, hfile, ?_⟩⟩
          simp only [cstr_cstr_terminated]
          exact hp

theorem alloc_success {F : Type} (E : Collab F) (env : AllocEnv) (root : String) (w : World)
    (fs : kibosh_fs F) (w' : World) (h : kibosh_fs_alloc E env root w = (0, some fs, w')) :
    Constructed fs w' ∧ SyncText E ⟨fs, w'⟩ := by
  unfold kibosh_fs_alloc at h
  cases hca : env.calloc_ok with
  | false => simp [hca, kibosh_fs_alloc_oom] at h
  | true =>
    by_cases hmi : env.mutex_init = 0
    · cases hsr : env.strdup_root_ok with
      | false => simp [hca, hmi, hsr, kibosh_fs_alloc_oom] at h
      | true =>
        cases hac : env.access_err with
        | some e => simp [hca, hmi, hsr, hac] at h
        | none =>
          simp only [hca, hmi, hsr, hac, if_true, ne_eq, not_true_eq_false, if_false] at h
          unfold kibosh_fs_alloc_pidfile at h
          cases hpe : env.pidfile_env with
          | none =>
            simp only [hpe] at h
            exact alloc_control_success E env _ _ fs w' rfl h
          | some path =>
            cases hsp : env.strdup_pidfile_ok with
            | false => simp [hpe, hsp, kibosh_fs_alloc_oom] at h
            | true =>
              cases hwp : env.write_pidfile_err with
              | some e => simp [hpe, hsp, hwp] at h
              | none =>
                simp only [hpe, hsp, hwp, if_true] at h
                exact alloc_control_success E env _ _ fs w' rfl h
    · simp [hca, hmi] at h

/-! ## The sync invariant -/

theorem step_preserves {F : Type} (E : Collab F) (s t : State F) (hst : Step E s t)
    (hc : Constructed s.fs s.w) (hsync : SyncText E s) :
    Constructed t.fs t.w ∧ SyncText E t := by
  obtain ⟨p, c, hp, hcf, hparse⟩ := hsync
  obtain ⟨b, hb⟩ := hc.buf_set
  cases hst with
  | accessor_fd_alloc env populate hfresh =>
    have h := accessor_alloc_cases env s.fs s.w populate hc hfresh
    obtain ⟨c0, c', hc0, hc', hcont⟩ := h.2.1
    rw [hcf] at hc0
    cases hc0
    refine ⟨⟨⟨c', ?_⟩, ⟨p, ?_⟩, ⟨b, ?_⟩, ?_⟩, ⟨p, c', ?_, ?_, ?_⟩⟩
    · simp only [h.1]
      exact hc'
    · simp only [h.1]
      exact hp
    · simp only [h.1]
      exact hb
    · simp only [h.1]
      exact hc.unlocked
    · simp only [h.1]
      exact hp
    · simp only [h.1]
      exact hc'
    · rw [hcont]
      exact hparse
  | accessor_fd_release env fd hne =>
    have failed : ∀ (hcause : s.w.fds fd = none ∨ ∃ f, s.w.fds fd = some f ∧
        accmode f.flags ≠ O_RDONLY ∧
        (env.lseek_err ≠ none ∨ env.read_err ≠ none ∨ CONTROL_BUF_LEN ≤ f.content.length ∨
          ∃ e, E.faults_parse (cstr f.content) = .error e)),
        Constructed (kibosh_fs_accessor_fd_release E env s.fs s.w fd).2.1
          (kibosh_fs_accessor_fd_release E env s.fs s.w fd).2.2 ∧
        SyncText E ⟨(kibosh_fs_accessor_fd_release E env s.fs s.w fd).2.1,
          (kibosh_fs_accessor_fd_release E env s.fs s.w fd).2.2⟩ := by
      intro hcause
      have h := release_failure E env s.fs s.w fd hcause ⟨b, hb⟩
      have hcf' : (kibosh_fs_accessor_fd_release E env s.fs s.w fd).2.2.fds
          (kibosh_fs_accessor_fd_release E env s.fs s.w fd).2.1.control_fd = some c := by
        rw [h.2.2.1, h.2.2.2.2.2.2.2.2.2 _ (Ne.symm hne)]
        exact hcf
      have hp' : (kibosh_fs_accessor_fd_release E env s.fs s.w fd).2.1.faults = some p := by
        rw [h.2.1]
        exact hp
      exact ⟨⟨⟨c, hcf'⟩, ⟨p, hp'⟩, h.2.2.2.2.2.2.2.2.1, h.2.2.2.1⟩, ⟨p, c, hp', hcf', hparse⟩⟩
    obtain hopen | ⟨f, hopen⟩ : s.w.fds fd = none ∨ ∃ f, s.w.fds fd = some f := by
      cases s.w.fds fd <;> simp
    · exact failed (Or.inl hopen)
    by_cases hro : accmode f.flags = O_RDONLY
    · have h := release_read_only_path E env s.fs s.w fd f hopen hro
      have hcf' : (kibosh_fs_accessor_fd_release E env s.fs s.w fd).2.2.fds s.fs.control_fd =
          some c := by
        rw [h.2.2.2.2.1 _ (Ne.symm hne)]
        exact hcf
      refine ⟨⟨⟨c, ?_⟩, ⟨p, ?_⟩, ⟨b, ?_⟩, ?_⟩, ⟨p, c, ?_, ?_, hparse⟩⟩
      · simp only [h.2.1]
        exact hcf'
      · simp only [h.2.1]
        exact hp
      · simp only [h.2.1]
        exact hb
      · simp only [h.2.1]
        exact hc.unlocked
      · simp only [h.2.1]
        exact hp
      · simp only [h.2.1]
        exact hcf'
    · rcases release_dichotomy E env f with hcause | ⟨h1, h2, h3, v, h4⟩
      · exact failed (Or.inr ⟨f, hopen, hro, hcause⟩)
      · have h := release_commit E env s.fs s.w fd f b v hopen hro hb h1 h2 h3 h4
        have hcf' : (kibosh_fs_accessor_fd_release E env s.fs s.w fd).2.2.fds
            (kibosh_fs_accessor_fd_release E env s.fs s.w fd).2.1.control_fd =
            some { f with pos := f.content.length } := by
          rw [h.2.1]
          exact h.2.2.2.2.2.1 hne
        have hp' : (kibosh_fs_accessor_fd_release E env s.fs s.w fd).2.1.faults =
            some ⟨s.w.next_faults, v⟩ := by
          rw [h.2.1]
        refine ⟨⟨⟨_, hcf'⟩, ⟨_, hp'⟩,
          ⟨f.content ++ [0], ?_⟩, ?_⟩, ⟨_, _, hp', hcf', h4⟩⟩
        · rw [h.2.1]
        · rw [h.2.1]
  | control_stat inject =>
    cases inject with
    | none =>
      simp only [kibosh_fs_control_stat, pthread_mutex_lock, pthread_mutex_unlock, World.log,
        hcf]
      exact ⟨⟨⟨c, hcf⟩, ⟨p, hp⟩, ⟨b, hb⟩, rfl⟩, ⟨p, c, hp, hcf, hparse⟩⟩
    | some e =>
      simp only [kibosh_fs_control_stat, pthread_mutex_lock, pthread_mutex_unlock, World.log,
        hcf]
      exact ⟨⟨⟨c, hcf⟩, ⟨p, hp⟩, ⟨b, hb⟩, rfl⟩, ⟨p, c, hp, hcf, hparse⟩⟩
  | check_read_fault path =>
    simp only [kibosh_fs_check_read_fault, pthread_mutex_lock, pthread_mutex_unlock, World.log]
    exact ⟨⟨⟨c, hcf⟩, ⟨p, hp⟩, ⟨b, hb⟩, rfl⟩, ⟨p, c, hp, hcf, hparse⟩⟩
  | caller_write fd f g hopen hne =>
    have hcf' : (s.w.setFile fd (some g)).fds s.fs.control_fd = some c := by
      simp [World.setFile, Ne.symm hne, hcf]
    exact ⟨⟨⟨c, hcf'⟩, ⟨p, hp⟩, ⟨b, hb⟩, hc.unlocked⟩, ⟨p, c, hp, hcf', hparse⟩⟩

theorem reachable_invariant {F : Type} (E : Collab F) (s : State F) (h : Reachable E s) :
    Constructed s.fs s.w ∧ SyncText E s := by
  induction h with
  | init env root w fs w' h => exact alloc_success E env root w fs w' h
  | step s t _ ht ih => exact step_preserves E s t ht ih.1 ih.2

/-- Counterexample to C3 as stated: after construction a caller opens
descriptor 4, writes `{a}`, a terminator, `{b}` and a terminator, and releases
it.  The release commits: the fault set is the parse of `{a}`, while the
committed file holds all eight bytes, and the parse of that full content is
not the fault set. -/
theorem sync_full_content_fails :
    Reachable sampleCollab s3 ∧ s3.fs.faults = some ⟨1, [97]⟩ ∧
    s3.w.fds s3.fs.control_fd =
      some { content := [123, 97, 125, 0, 123, 98, 125, 0], pos := 8, flags := O_RDWR } ∧
    ¬ SyncFull sampleCollab s3 :=
  ⟨reachable_s3, by decide, by decide, s3_not_sync⟩

/-- C3 (amended): in every state reachable from a successful
`kibosh_fs_alloc` by calls of `kibosh_fs_accessor_fd_alloc`,
`kibosh_fs_accessor_fd_release`, `kibosh_fs_control_stat` and
`kibosh_fs_check_read_fault` and by writes of callers to their handles, the
fault set is not NULL, the committed descriptor is open, and the fault set is
the result of parsing the content of the committed file up to its first
terminator. -/
theorem sync_invariant {F : Type} (E : Collab F) (s : State F) (h : Reachable E s) :
    ∃ p c, s.fs.faults = some p ∧ s.w.fds s.fs.control_fd = some c ∧
      E.faults_parse (cstr c.content) = .ok p.val :=
  (reachable_invariant E s h).2

/-- Witness of C3 (amended): the state of the counterexample. -/
theorem sync_invariant_witness :
    ∃ p c, s3.fs.faults = some p ∧ s3.w.fds s3.fs.control_fd = some c ∧
      sampleCollab.faults_parse (cstr c.content) = .ok p.val :=
  sync_invariant sampleCollab s3 reachable_s3

/-- Every outcome of `kibosh_fs_alloc`: success with a state in `*out`, or a
negative return value with `*out` NULL, or the failure of
`pthread_mutex_init`, where the return value is `-errno` with the `errno` of
the entry and `*out` is NULL. -/
theorem alloc_outcomes {F : Type} (E : Collab F) (env : AllocEnv) (root : String) (w : World) :
    ((kibosh_fs_alloc E env root w).1 = 0 ∧ ∃ fs, (kibosh_fs_alloc E env root w).2.1 = some fs) ∨
    ((kibosh_fs_alloc E env root w).1 < 0 ∧ (kibosh_fs_alloc E env root w).2.1 = none) ∨
    (env.calloc_ok = true ∧ env.mutex_init ≠ 0 ∧
      (kibosh_fs_alloc E env root w).1 = -(w.errno : Int) ∧
      (kibosh_fs_alloc E env root w).2.1 = none) := by
  have control : ∀ (fs : kibosh_fs F) (w1 : World),
      ((kibosh_fs_alloc_control E env fs w1).1 = 0 ∧
        ∃ fs', (kibosh_fs_alloc_control E env fs w1).2.1 = some fs') ∨
      ((kibosh_fs_alloc_control E env fs w1).1 < 0 ∧
        (kibosh_fs_alloc_control E env fs w1).2.1 = none) := by
    intro fs w1
    unfold kibosh_fs_alloc_control
    cases hm : env.memfd with
    | error e => simp [memfd_create, Errno.neg_lt_zero]
    | ok n =>
      have hn : ¬ ((n : Int) < 0) := by omega
      cases hsw : env.safe_write_err with
      | some e => simp [memfd_create, hn, safe_write, World.log, World.setFile, Errno.neg_lt_zero]
      | none =>
        cases hp : E.faults_parse (cstr E.FAULTS_EMPTY_JSON) with
        | error e =>
          simp [memfd_create, hn, safe_write, World.log, World.setFile, faults_parse, hp,
            Errno.neg_lt_zero]
        | ok v =>
          cases hmo : env.malloc_ok <;>
            simp [memfd_create, hn, safe_write, World.log, World.setFile, faults_parse, hp,
              Errno.neg_lt_zero]
  unfold kibosh_fs_alloc
  cases hca : env.calloc_ok with
  | false => simp [kibosh_fs_alloc_oom, Errno.neg_lt_zero]
  | true =>
    by_cases hmi : env.mutex_init = 0
    · cases hsr : env.strdup_root_ok with
      | false => simp [hmi, kibosh_fs_alloc_oom, Errno.neg_lt_zero]
      | true =>
        cases hac : env.access_err with
        | some e =>
          have := e.pos
          simp [hmi]
          omega
        | none =>
          simp only [hmi, if_true, ne_eq, not_true_eq_false, if_false]
          unfold kibosh_fs_alloc_pidfile
          cases hpe : env.pidfile_env with
          | none =>
            rcases control _ _ with h | h
            · exact Or.inl h
            · exact Or.inr (Or.inl h)
          | some path =>
            cases hsp : env.strdup_pidfile_ok with
            | false => simp [kibosh_fs_alloc_oom, Errno.neg_lt_zero]
            | true =>
              cases hwp : env.write_pidfile_err with
              | some e => simp [Errno.neg_lt_zero]
              | none =>
                simp only [if_true]
                rcases control _ _ with h | h
                · exact Or.inl h
                · exact Or.inr (Or.inl h)
    · simp [hmi, World.log]

/-- When `write_pidfile` fails, the cleanup calls `remove_pidfile` on the path
although no `write_pidfile` succeeded. -/
theorem alloc_write_pidfile_failure_trace {F : Type} (E : Collab F) (env : AllocEnv)
    (root : String) (w : World) (path : String) (e : Errno) (hca : env.calloc_ok = true)
    (hmi : env.mutex_init = 0) (hsr : env.strdup_root_ok = true) (hac : env.access_err = none)
    (hpe : env.pidfile_env = some path) (hsp : env.strdup_pidfile_ok = true)
    (hwp : env.write_pidfile_err = some e) :
    (kibosh_fs_alloc E env root w).1 = e.neg ∧
    (kibosh_fs_alloc E env root w).2.2.trace =
      w.trace ++ [Event.calloc_fs, Event.mutex_init, Event.strdup_root,
        Event.strdup_pidfile_path, Event.free_root, Event.remove_pidfile path,
        Event.free_pidfile_path, Event.mutex_destroy, Event.free_fs] := by
  simp [kibosh_fs_alloc, kibosh_fs_alloc_pidfile, kibosh_fs_free, hca, hmi, hsr, hac, hpe, hsp,
    hwp, World.log, zeroed_fs]

/-! ## The claim about `kibosh_fs_alloc` -/

/-- C7 (the code departs from the claim): when `pthread_mutex_init` fails,
`kibosh_fs_alloc` returns `-errno`, and `pthread_mutex_init` reports its error
in its return value without setting `errno`.  With `errno` 0 at that point
the call returns 0 with `*out` NULL, after freeing the structure. -/
theorem alloc_mutex_init_failure_returns_errno {F : Type} (E : Collab F) (env : AllocEnv)
    (root : String) (w : World) (hca : env.calloc_ok = true) (hmi : env.mutex_init ≠ 0)
    (herrno : w.errno = 0) :
    (kibosh_fs_alloc E env root w).1 = 0 ∧ (kibosh_fs_alloc E env root w).2.1 = none ∧
    (kibosh_fs_alloc E env root w).2.2.trace = w.trace ++ [Event.calloc_fs, Event.free_fs] := by
  simp [kibosh_fs_alloc, hca, hmi, World.log, herrno]

/-- Witness of C7: `pthread_mutex_init` fails with `EAGAIN` in a world whose
`errno` is 0. -/
theorem alloc_mutex_init_failure_returns_errno_witness :
    (kibosh_fs_alloc sampleCollab mutexFailsAllocEnv "/mnt" emptyWorld).1 = 0 ∧
    (kibosh_fs_alloc sampleCollab mutexFailsAllocEnv "/mnt" emptyWorld).2.1 = none :=
  have h := alloc_mutex_init_failure_returns_errno sampleCollab mutexFailsAllocEnv "/mnt"
    emptyWorld rfl (by decide) rfl
  ⟨h.1, h.2.1⟩

end Kibosh
